import Mathlib

/-!
# sdr-backend: a verification development

A shallow embedding of the Go backend of `sound-design-recipes` (`sdr-backend`):

* `internal/services/tiktok/tiktok.go`   : `ValidateURL` (three regular expressions);
* `internal/services/database/database.go` : the Supabase REST gateway;
* `internal/handlers/handlers.go`        : the `Transcribe` request handler;
* `internal/config/config.go`, `cmd/api/main.go` : configuration and startup.

Strings are Lean strings, Go errors are their messages, and every call that leaves the
process (the `yt-dlp` subprocess, the Groq, Claude and Supabase HTTP exchanges, the
temp directory, the clock) is a field of an explicit environment record that threads a
world state.
-/

namespace Sdr

/-! ## Regular expressions (Go `regexp`, the fragment used by `tiktok.go`) -/

/-- Abstract syntax of the regular expressions that occur in `tiktok.go`.
A character class is a list of inclusive rune ranges, as in Go's `regexp/syntax`. -/
inductive Regex where
  | empty : Regex
  | eps : Regex
  | cls (ranges : List (Char × Char)) : Regex
  | seq (a b : Regex) : Regex
  | alt (a b : Regex) : Regex
  | star (a : Regex) : Regex

namespace Regex

/-- Membership of a rune in a class given by inclusive ranges. -/
def inRanges (ranges : List (Char × Char)) (c : Char) : Bool :=
  ranges.any (fun r => decide (r.1 ≤ c) && decide (c ≤ r.2))

/-- A literal rune. -/
def lit (c : Char) : Regex := cls [(c, c)]

/-- A literal string: the concatenation of its runes. -/
def str : List Char → Regex
  | [] => eps
  | c :: cs => seq (lit c) (str cs)

/-- The operator `x?`. -/
def opt (a : Regex) : Regex := alt a eps

/-- The operator `x+`. -/
def plus (a : Regex) : Regex := seq a (star a)

/-- Whether the expression matches the empty string. -/
def nullable : Regex → Bool
  | empty => false
  | eps => true
  | cls _ => false
  | seq a b => nullable a && nullable b
  | alt a b => nullable a || nullable b
  | star _ => true

/-- Brzozowski derivative with respect to one rune. -/
def deriv (c : Char) : Regex → Regex
  | empty => empty
  | eps => empty
  | cls rs => if inRanges rs c then eps else empty
  | seq a b => if nullable a then alt (seq (deriv c a) b) (deriv c b) else seq (deriv c a) b
  | alt a b => alt (deriv c a) (deriv c b)
  | star a => seq (deriv c a) (star a)

/-- Whether some prefix of the input is matched by the expression: this is what
`regexp.MatchString` decides for a pattern that starts with the anchor `^` and has no
other anchor. -/
def matchPrefix : Regex → List Char → Bool
  | r, [] => nullable r
  | r, c :: cs => nullable r || matchPrefix (deriv c r) cs

/-- The strings an expression matches exactly (denotational semantics). -/
def Lang : Regex → List Char → Prop
  | empty, _ => False
  | eps, s => s = []
  | cls rs, s => ∃ c, s = [c] ∧ inRanges rs c = true
  | seq a b, s => ∃ x y, s = x ++ y ∧ Lang a x ∧ Lang b y
  | alt a b, s => Lang a s ∨ Lang b s
  | star a, s => ∃ L : List (List Char), s = L.flatten ∧ ∀ x ∈ L, x ≠ [] ∧ Lang a x

/-- Some prefix of the input is matched exactly. -/
def PrefixLang (r : Regex) (s : List Char) : Prop := ∃ p t, s = p ++ t ∧ Lang r p

end Regex

/-! ## `models.go` -/

/-- A Go `error`, represented by its message. -/
abbrev GoError := String

/-- A `time.Time`, represented by an abstract instant. -/
abbrev Timestamp := Nat

namespace models

/-- The struct `models.Creator`. -/
structure Creator where
  ID : String
  TiktokHandle : String
  DisplayName : String
  AvatarURL : String
  IsClaimed : Bool
  CreatedAt : Timestamp
deriving DecidableEq, Repr

/-- The struct `models.Instruction`. -/
structure Instruction where
  ID : String
  TutorialID : String
  StepNumber : Int
  Description : String
  AbletonDevice : String
  Parameters : List (String × String)
  Notes : String
  ScreenshotURL : String
deriving DecidableEq, Repr

/-- The struct `models.Tutorial`; the pointer field `Creator` is an option. -/
structure Tutorial where
  ID : String
  CreatorID : String
  TiktokURL : String
  TiktokVideoID : String
  Title : String
  SoundType : String
  RawTranscription : String
  Status : String
  CreatedAt : Timestamp
  UpdatedAt : Timestamp
  Creator : Option Creator
  Instructions : List Instruction
deriving DecidableEq, Repr

/-- The struct `models.TranscribeRequest`. -/
structure TranscribeRequest where
  URL : String
deriving DecidableEq, Repr

/-- The struct `models.TranscribeResponse`; a nil `Tutorial` pointer is `none`. -/
structure TranscribeResponse where
  Success : Bool
  Message : String
  Tutorial : Option Tutorial
deriving DecidableEq, Repr

/-- The struct `models.ParsedInstruction`. -/
structure ParsedInstruction where
  StepNumber : Int
  Description : String
  AbletonDevice : String
  Parameters : List (String × String)
  Notes : String
deriving DecidableEq, Repr

/-- The struct `models.ParsedRecipe`. -/
structure ParsedRecipe where
  Title : String
  SoundType : String
  CreatorName : String
  Instructions : List ParsedInstruction
  IsSoundDesign : Bool
deriving DecidableEq, Repr

end models

/-! ## `tiktok.go` -/

namespace tiktok

/-- The struct `tiktok.VideoInfo`. -/
structure VideoInfo where
  VideoID : String
  CreatorName : String
  CreatorHandle : String
  Title : String
  AudioPath : String
deriving DecidableEq, Repr

/-- The two methods of `tiktok.Service` that leave the process: `ExtractAudio` runs
`yt-dlp` twice, `Cleanup` removes files from the temp directory and returns nothing. -/
structure Service (σ : Type) where
  ExtractAudio : String → σ → Except GoError VideoInfo × σ
  Cleanup : String → σ → σ

open Regex

/-- The class `\w` of RE2: `[0-9A-Za-z_]`. -/
def wordClass : List (Char × Char) := [('0', '9'), ('A', 'Z'), ('_', '_'), ('a', 'z')]

/-- The class `\d` of RE2: `[0-9]`. -/
def digitClass : List (Char × Char) := [('0', '9')]

/-- The class `[\w.-]`. -/
def handleClass : List (Char × Char) := wordClass ++ [('.', '.'), ('-', '-')]

/-- The common head `https?://` of the three patterns. -/
def schemeRe : Regex := seq (str "http".data) (seq (opt (lit 's')) (str "://".data))

/-- Pattern 1 without its leading anchor:
`https?://(www\.)?tiktok\.com/@[\w.-]+/video/\d+`. -/
def videoPattern : Regex :=
  seq schemeRe (seq (opt (str "www.".data)) (seq (str "tiktok.com/@".data)
    (seq (plus (cls handleClass)) (seq (str "/video/".data) (plus (cls digitClass))))))

/-- Pattern 2 without its leading anchor: `https?://vm\.tiktok\.com/[\w]+`. -/
def vmPattern : Regex :=
  seq schemeRe (seq (str "vm.tiktok.com/".data) (plus (cls wordClass)))

/-- Pattern 3 without its leading anchor: `https?://(www\.)?tiktok\.com/t/[\w]+`. -/
def shortPattern : Regex :=
  seq schemeRe (seq (opt (str "www.".data)) (seq (str "tiktok.com/t/".data)
    (plus (cls wordClass))))

/-- The slice `patterns` of `ValidateURL`; each entry starts with `^` in the source. -/
def patterns : List Regex := [videoPattern, vmPattern, shortPattern]

/-- Method `Service.ValidateURL`: true as soon as one pattern matches. -/
def ValidateURL (url : String) : Bool :=
  patterns.any (fun pattern => matchPrefix pattern url.data)

/-! ### The accepted URL shapes, in the words of the specification -/

/-- A word character: an ASCII letter, an ASCII digit or the underscore. -/
def isWordChar (c : Char) : Bool := c.isAlphanum || c == '_'

/-- A character of a handle: a word character, a dot or a hyphen. -/
def isHandleChar (c : Char) : Bool := isWordChar c || c == '.' || c == '-'

/-- A non-empty run of characters that all satisfy `p`. -/
def IsRun (p : Char → Bool) (l : List Char) : Prop := l ≠ [] ∧ ∀ c ∈ l, p c = true

/-- An optional `www.`. -/
def IsOptionalWww (l : List Char) : Prop := l = [] ∨ l = "www.".data

/-- Shape (1), after the scheme: optional `www.`, `tiktok.com/@`, a non-empty run of
word characters, dots or hyphens, `/video/` and at least one decimal digit. -/
def DirectVideoShape (rest : List Char) : Prop :=
  ∃ www handle digits tail : List Char,
    IsOptionalWww www ∧ IsRun isHandleChar handle ∧ IsRun Char.isDigit digits ∧
      rest = www ++ "tiktok.com/@".data ++ handle ++ "/video/".data ++ digits ++ tail

/-- Shape (2), after the scheme: `vm.tiktok.com/` and at least one word character. -/
def VmShape (rest : List Char) : Prop :=
  ∃ word tail : List Char,
    IsRun isWordChar word ∧ rest = "vm.tiktok.com/".data ++ word ++ tail

/-- Shape (3), after the scheme: optional `www.`, `tiktok.com/t/` and at least one word
character. -/
def ShortLinkShape (rest : List Char) : Prop :=
  ∃ www word tail : List Char,
    IsOptionalWww www ∧ IsRun isWordChar word ∧
      rest = www ++ "tiktok.com/t/".data ++ word ++ tail

/-- The accepted URLs in the words of the specification: the URL begins with `http://`
or `https://`, followed by one of the three shapes. -/
def AcceptedURL (u : String) : Prop :=
  ∃ scheme rest : List Char,
    (scheme = "http://".data ∨ scheme = "https://".data) ∧ u.data = scheme ++ rest ∧
      (DirectVideoShape rest ∨ VmShape rest ∨ ShortLinkShape rest)

/-- The URL `https://www.tiktok.com/@<handle>/video/<id>`. -/
def directVideoURL (handle id : String) : String :=
  "https://www.tiktok.com/@" ++ handle ++ "/video/" ++ id

end tiktok

/-! ## `transcription.go` and `parser.go` -/

namespace transcription

/-- The struct `transcription.TranscriptionResult`. -/
structure TranscriptionResult where
  Text : String
deriving DecidableEq, Repr

/-- The method `Service.Transcribe`: one multipart upload to the Groq endpoint. -/
structure Service (σ : Type) where
  Transcribe : String → σ → Except GoError TranscriptionResult × σ

end transcription

namespace parser

/-- The method `Service.Parse`: one request to the Claude endpoint, whose answer is
decoded as a `ParsedRecipe`. -/
structure Service (σ : Type) where
  Parse : String → String → σ → Except GoError models.ParsedRecipe × σ

end parser

/-! ## `database.go` -/

namespace database

open models

/-- A value stored in a `map[string]interface{}` insert document. -/
inductive JValue where
  | str (s : String) : JValue
  | bool (b : Bool) : JValue
  | int (i : Int) : JValue
  | time (t : Timestamp) : JValue
  | strMap (m : List (String × String)) : JValue
deriving DecidableEq, Repr

/-- An insert document, `map[string]interface{}`, as a key-value list. -/
abbrev Payload := List (String × JValue)

/-- An `http.Request` as `request` builds it; `body` is the document that is marshalled
(`json.Marshal` cannot fail on the documents built in this file). -/
structure HttpRequest where
  method : String
  url : String
  headers : List (String × String)
  body : Option Payload
deriving DecidableEq, Repr

/-- The outcome of `client.Do` followed by `io.ReadAll`. -/
inductive Exchange where
  | sendFailed (err : GoError) : Exchange
  | readFailed (err : GoError) : Exchange
  | done (StatusCode : Nat) (respBody : String) : Exchange
deriving DecidableEq, Repr

/-- What `database.go` takes from outside the process: the clock, `http.NewRequest`
(which fails on a URL that does not parse), the HTTP client and `json.Unmarshal` into the
two slice types that are used as `result`. -/
structure Backend (σ : Type) where
  now : σ → Timestamp × σ
  newRequest : String → String → Option GoError
  roundTrip : HttpRequest → σ → Exchange × σ
  unmarshalCreators : String → Except GoError (List Creator)
  unmarshalTutorials : String → Except GoError (List Tutorial)

/-- The arguments of one call of the helper `Service.request` (the `result` pointer
apart). -/
structure RequestCall where
  method : String
  endpoint : String
  body : Option Payload
deriving DecidableEq, Repr

/-- The world together with the calls of `Service.request` made so far and the requests
handed to the HTTP client so far (a call hands over no request when `http.NewRequest`
fails). -/
structure Wire (σ : Type) where
  world : σ
  sent : List HttpRequest
  calls : List RequestCall

/-- The struct `database.Service` (the `client` field is part of the `Backend`). -/
structure Service where
  baseURL : String
  apiKey : String
deriving DecidableEq, Repr

/-- Function `NewService`. -/
def NewService (supabaseURL anonKey : String) : Service :=
  { baseURL := supabaseURL ++ "/rest/v1", apiKey := anonKey }

/-- The request that `request` builds: `http.NewRequest` on `baseURL + endpoint` and the
four `Header.Set` calls. -/
def buildRequest (s : Service) (method endpoint : String) (body : Option Payload) :
    HttpRequest :=
  { method := method
    url := s.baseURL ++ endpoint
    headers := [("apikey", s.apiKey), ("Authorization", "Bearer " ++ s.apiKey),
      ("Content-Type", "application/json"), ("Prefer", "return=representation")]
    body := body }

/-- The helper `Service.request`. The `result` pointer is the decoder of its target
(`none` for a nil `result`); the value is the decoded target, `none` when nothing was
decoded and the target keeps its zero value. -/
def request {σ α : Type} (env : Backend σ) (s : Service) (method endpoint : String)
    (body : Option Payload) (result : Option (String → Except GoError α)) (w : Wire σ) :
    Except GoError (Option α) × Wire σ :=
  let calls := w.calls ++ [{ method := method, endpoint := endpoint, body := body }]
  match env.newRequest method (s.baseURL ++ endpoint) with
  | some err => (.error ("failed to create request: " ++ err), { w with calls := calls })
  | none =>
    let req := buildRequest s method endpoint body
    let out := env.roundTrip req w.world
    let w1 : Wire σ := { world := out.2, sent := w.sent ++ [req], calls := calls }
    match out.1 with
    | .sendFailed err => (.error ("failed to send request: " ++ err), w1)
    | .readFailed err => (.error ("failed to read response: " ++ err), w1)
    | .done StatusCode respBody =>
      if StatusCode ≥ 400 then
        (.error ("supabase error (status " ++ toString StatusCode ++ "): " ++ respBody), w1)
      else
        match result with
        | none => (.ok none, w1)
        | some unmarshal =>
          if respBody.utf8ByteSize > 0 then
            match unmarshal respBody with
            | .error err => (.error ("failed to parse response: " ++ err), w1)
            | .ok v => (.ok (some v), w1)
          else (.ok none, w1)

/-- Method `Service.GetOrCreateCreator`. -/
def GetOrCreateCreator {σ : Type} (env : Backend σ) (s : Service) (handle displayName : String)
    (w : Wire σ) : Except GoError Creator × Wire σ :=
  let endpoint := "/creators?tiktok_handle=eq." ++ handle ++ "&select=*"
  match request env s "GET" endpoint none (some env.unmarshalCreators) w with
  | (.error err, w1) => (.error err, w1)
  | (.ok creators, w1) =>
    match creators.getD [] with
    | c :: _ => (.ok c, w1)
    | [] =>
      let t := env.now w1.world
      let newCreator : Payload :=
        [("tiktok_handle", .str handle), ("display_name", .str displayName),
          ("is_claimed", .bool false), ("created_at", .time t.1)]
      match request env s "POST" "/creators" (some newCreator) (some env.unmarshalCreators)
          { w1 with world := t.2 } with
      | (.error err, w2) => (.error ("failed to create creator: " ++ err), w2)
      | (.ok created, w2) =>
        match created.getD [] with
        | [] => (.error "no creator returned after insert", w2)
        | c :: _ => (.ok c, w2)

/-- Method `Service.GetTutorialByVideoID`; the Go result pair `(*Tutorial, error)`. -/
def GetTutorialByVideoID {σ : Type} (env : Backend σ) (s : Service) (videoID : String)
    (w : Wire σ) : (Option Tutorial × Option GoError) × Wire σ :=
  let endpoint := "/tutorials?tiktok_video_id=eq." ++ videoID ++ "&select=*"
  match request env s "GET" endpoint none (some env.unmarshalTutorials) w with
  | (.error err, w1) => ((none, some err), w1)
  | (.ok tutorials, w1) =>
    match tutorials.getD [] with
    | t :: _ => ((some t, none), w1)
    | [] => ((none, none), w1)

/-- The insert document that `CreateTutorial` builds, given the two clock readings. -/
def newTutorial (tutorial : Tutorial) (createdAt updatedAt : Timestamp) : Payload :=
  [("creator_id", .str tutorial.CreatorID),
    ("tiktok_url", .str tutorial.TiktokURL),
    ("tiktok_video_id", .str tutorial.TiktokVideoID),
    ("title", .str tutorial.Title),
    ("sound_type", .str tutorial.SoundType),
    ("raw_transcription", .str tutorial.RawTranscription),
    ("status", .str "pending"),
    ("created_at", .time createdAt),
    ("updated_at", .time updatedAt)]

/-- Method `Service.CreateTutorial`. -/
def CreateTutorial {σ : Type} (env : Backend σ) (s : Service) (tutorial : Tutorial)
    (w : Wire σ) : Except GoError Tutorial × Wire σ :=
  let t1 := env.now w.world
  let t2 := env.now t1.2
  match request env s "POST" "/tutorials" (some (newTutorial tutorial t1.1 t2.1))
      (some env.unmarshalTutorials) { w with world := t2.2 } with
  | (.error err, w1) => (.error ("failed to create tutorial: " ++ err), w1)
  | (.ok created, w1) =>
    match created.getD [] with
    | [] => (.error "no tutorial returned after insert", w1)
    | t :: _ => (.ok t, w1)

/-- The insert document that `CreateInstructions` builds for one step. -/
def newInst (tutorialID : String) (inst : ParsedInstruction) : Payload :=
  [("tutorial_id", .str tutorialID),
    ("step_number", .int inst.StepNumber),
    ("description", .str inst.Description),
    ("ableton_device", .str inst.AbletonDevice),
    ("parameters", .strMap inst.Parameters),
    ("notes", .str inst.Notes)]

/-- Method `Service.CreateInstructions`: the loop over the steps, leaving at the first error. -/
def CreateInstructions {σ : Type} (env : Backend σ) (s : Service) (tutorialID : String) :
    List ParsedInstruction → Wire σ → Option GoError × Wire σ
  | [], w => (none, w)
  | inst :: rest, w =>
    match request env s "POST" "/instructions" (some (newInst tutorialID inst))
        (none : Option (String → Except GoError Unit)) w with
    | (.error err, w1) =>
      (some ("failed to create instruction " ++ toString inst.StepNumber ++ ": " ++ err), w1)
    | (.ok _, w1) => CreateInstructions env s tutorialID rest w1

/-- Method `Service.GetTutorialWithInstructions`. -/
def GetTutorialWithInstructions {σ : Type} (env : Backend σ) (s : Service)
    (tutorialID : String) (w : Wire σ) : Except GoError Tutorial × Wire σ :=
  let endpoint :=
    "/tutorials?id=eq." ++ tutorialID ++ "&select=*,creator:creators(*),instructions(*)"
  match request env s "GET" endpoint none (some env.unmarshalTutorials) w with
  | (.error err, w1) => (.error err, w1)
  | (.ok tutorials, w1) =>
    match tutorials.getD [] with
    | [] => (.error "tutorial not found", w1)
    | t :: _ => (.ok t, w1)

/-- The method set of `*database.Service` that the handler calls. -/
structure Methods (σ : Type) where
  GetOrCreateCreator : String → String → σ → Except GoError Creator × σ
  GetTutorialByVideoID : String → σ → (Option Tutorial × Option GoError) × σ
  CreateTutorial : Tutorial → σ → Except GoError Tutorial × σ
  CreateInstructions : String → List ParsedInstruction → σ → Option GoError × σ
  GetTutorialWithInstructions : String → σ → Except GoError Tutorial × σ

/-- The methods of a `database.Service` running against a backend. -/
def Service.methods {σ : Type} (env : Backend σ) (s : Service) : Methods (Wire σ) :=
  { GetOrCreateCreator := GetOrCreateCreator env s
    GetTutorialByVideoID := GetTutorialByVideoID env s
    CreateTutorial := CreateTutorial env s
    CreateInstructions := CreateInstructions env s
    GetTutorialWithInstructions := GetTutorialWithInstructions env s }

end database

/-! ## `handlers.go` -/

namespace handlers

open models

/-- What a run of the handler does that is visible from outside: the calls it makes on
its four services and the responses it writes. Log lines are not recorded. -/
inductive Event where
  | extractAudio (url : String) : Event
  | cleanup (videoID : String) : Event
  | getTutorialByVideoID (videoID : String) : Event
  | transcribe (audioPath : String) : Event
  | parse (transcription creatorName : String) : Event
  | getOrCreateCreator (handle displayName : String) : Event
  | createTutorial (tutorial : Tutorial) : Event
  | createInstructions (tutorialID : String) (instructions : List ParsedInstruction) : Event
  | getTutorialWithInstructions (tutorialID : String) : Event
  | respond (status : Nat) (data : TranscribeResponse) : Event
deriving DecidableEq, Repr

/-- The struct `Handler`, with the decoder of the request body
(`json.NewDecoder(r.Body).Decode`) next to the four services. -/
structure Handler (σ : Type) where
  decodeBody : String → Except GoError TranscribeRequest
  tiktok : tiktok.Service σ
  transcription : transcription.Service σ
  parser : parser.Service σ
  db : database.Methods σ

/-- Function `respondJSON`: one response with the given status and body. -/
def respondJSON (status : Nat) (data : TranscribeResponse) : Event :=
  .respond status data

/-- Function `respondError`. -/
def respondError (status : Nat) (message : String) : Event :=
  respondJSON status { Success := false, Message := message, Tutorial := none }

/-- Constant `http.StatusOK`. -/
def StatusOK : Nat := 200

/-- Constant `http.StatusCreated`. -/
def StatusCreated : Nat := 201

/-- Constant `http.StatusBadRequest`. -/
def StatusBadRequest : Nat := 400

/-- Constant `http.StatusInternalServerError`. -/
def StatusInternalServerError : Nat := 500

/-- The tutorial that the handler builds for `CreateTutorial` (lines 127 to 135); the
fields that the literal leaves out have their zero value. -/
def newTutorial (req : TranscribeRequest) (videoInfo : tiktok.VideoInfo)
    (transcriptionResult : transcription.TranscriptionResult) (recipe : ParsedRecipe)
    (creator : Creator) : Tutorial :=
  { ID := ""
    CreatorID := creator.ID
    TiktokURL := req.URL
    TiktokVideoID := videoInfo.VideoID
    Title := recipe.Title
    SoundType := recipe.SoundType
    RawTranscription := transcriptionResult.Text
    Status := "pending"
    CreatedAt := 0
    UpdatedAt := 0
    Creator := none
    Instructions := [] }

/-- Lines 153 to 156: the reloaded tutorial, or the saved one when the reload failed. -/
def completeTutorial (savedTutorial : Tutorial) (reload : Except GoError Tutorial) : Tutorial :=
  match reload with
  | .ok t => t
  | .error _ => savedTutorial

/-- Line 157, the assignment `completeTutorial.Creator = creator`. -/
def setCreator (t : Tutorial) (creator : Creator) : Tutorial :=
  { t with Creator := some creator }

/-- The body of `Handler.Transcribe` below the `defer` statement (lines 69 to 163). -/
def transcribeDeferred {σ : Type} (h : Handler σ) (req : TranscribeRequest)
    (videoInfo : tiktok.VideoInfo) (w : σ) : List Event × σ :=
  match h.db.GetTutorialByVideoID videoInfo.VideoID w with
  | ((some existing, _), w1) =>
    ([.getTutorialByVideoID videoInfo.VideoID,
      respondJSON StatusOK
        { Success := true, Message := "Tutorial already exists", Tutorial := some existing }],
      w1)
  | ((none, _), w1) =>
    match h.transcription.Transcribe videoInfo.AudioPath w1 with
    | (.error _, w2) =>
      ([.getTutorialByVideoID videoInfo.VideoID, .transcribe videoInfo.AudioPath,
        respondError StatusInternalServerError "Failed to transcribe audio"], w2)
    | (.ok transcriptionResult, w2) =>
      match h.parser.Parse transcriptionResult.Text videoInfo.CreatorName w2 with
      | (.error _, w3) =>
        ([.getTutorialByVideoID videoInfo.VideoID, .transcribe videoInfo.AudioPath,
          .parse transcriptionResult.Text videoInfo.CreatorName,
          respondError StatusInternalServerError "Failed to parse transcription"], w3)
      | (.ok recipe, w3) =>
        if !recipe.IsSoundDesign then
          ([.getTutorialByVideoID videoInfo.VideoID, .transcribe videoInfo.AudioPath,
            .parse transcriptionResult.Text videoInfo.CreatorName,
            respondError StatusBadRequest
              "This video doesn't appear to be a sound design tutorial"], w3)
        else
          match h.db.GetOrCreateCreator videoInfo.CreatorHandle videoInfo.CreatorName w3 with
          | (.error _, w4) =>
            ([.getTutorialByVideoID videoInfo.VideoID, .transcribe videoInfo.AudioPath,
              .parse transcriptionResult.Text videoInfo.CreatorName,
              .getOrCreateCreator videoInfo.CreatorHandle videoInfo.CreatorName,
              respondError StatusInternalServerError "Failed to save creator"], w4)
          | (.ok creator, w4) =>
            match h.db.CreateTutorial
                (newTutorial req videoInfo transcriptionResult recipe creator) w4 with
            | (.error _, w5) =>
              ([.getTutorialByVideoID videoInfo.VideoID, .transcribe videoInfo.AudioPath,
                .parse transcriptionResult.Text videoInfo.CreatorName,
                .getOrCreateCreator videoInfo.CreatorHandle videoInfo.CreatorName,
                .createTutorial (newTutorial req videoInfo transcriptionResult recipe creator),
                respondError StatusInternalServerError "Failed to save tutorial"], w5)
            | (.ok savedTutorial, w5) =>
              let w6 := (h.db.CreateInstructions savedTutorial.ID recipe.Instructions w5).2
              let reload := h.db.GetTutorialWithInstructions savedTutorial.ID w6
              ([.getTutorialByVideoID videoInfo.VideoID, .transcribe videoInfo.AudioPath,
                .parse transcriptionResult.Text videoInfo.CreatorName,
                .getOrCreateCreator videoInfo.CreatorHandle videoInfo.CreatorName,
                .createTutorial (newTutorial req videoInfo transcriptionResult recipe creator),
                .createInstructions savedTutorial.ID recipe.Instructions,
                .getTutorialWithInstructions savedTutorial.ID,
                respondJSON StatusCreated
                  { Success := true, Message := "Tutorial transcribed and saved successfully",
                    Tutorial := some (setCreator (completeTutorial savedTutorial reload.1)
                      creator) }],
                reload.2)

/-- Method `Handler.Transcribe` on a request with the given body: the events of the run, in
order, and the world it leaves. The deferred `Cleanup` runs when the function returns,
after everything below the `defer` statement. -/
def Transcribe {σ : Type} (h : Handler σ) (body : String) (w : σ) : List Event × σ :=
  match h.decodeBody body with
  | .error _ => ([respondError StatusBadRequest "Invalid request body"], w)
  | .ok req =>
    if !tiktok.ValidateURL req.URL then
      ([respondError StatusBadRequest "Invalid TikTok URL"], w)
    else
      match h.tiktok.ExtractAudio req.URL w with
      | (.error _, w1) =>
        ([.extractAudio req.URL,
          respondError StatusInternalServerError "Failed to extract audio from TikTok"], w1)
      | (.ok videoInfo, w1) =>
        let rest := transcribeDeferred h req videoInfo w1
        (.extractAudio req.URL :: rest.1 ++ [.cleanup videoInfo.VideoID],
          h.tiktok.Cleanup videoInfo.VideoID rest.2)

/-- The responses written during a run, in order. -/
def responses : List Event → List (Nat × TranscribeResponse)
  | [] => []
  | .respond status data :: rest => (status, data) :: responses rest
  | _ :: rest => responses rest

/-- Whether an event is a call of one of the four persistence methods that write or
reload a recipe. -/
def Event.isPersistence : Event → Bool
  | .getOrCreateCreator _ _ => true
  | .createTutorial _ => true
  | .createInstructions _ _ => true
  | .getTutorialWithInstructions _ => true
  | _ => false

/-- Whether an event is a call of `transcription.Transcribe` or `parser.Parse`. -/
def Event.isProcessing : Event → Bool
  | .transcribe _ => true
  | .parse _ _ => true
  | _ => false

/-- Whether an event is a call on a service (anything but a response). -/
def Event.isCall : Event → Bool
  | .respond _ _ => false
  | _ => true

/-- Whether an event is a call of `Cleanup`. -/
def Event.isCleanup : Event → Bool
  | .cleanup _ => true
  | _ => false

end handlers

namespace handlers

open models

/-! ### Scripted services, for running the handler on concrete outcomes -/

/-- The outcome that each stage of a scripted run returns. -/
structure Script where
  decode : Except GoError TranscribeRequest
  extract : Except GoError tiktok.VideoInfo
  lookup : Option Tutorial × Option GoError
  transcribe : Except GoError transcription.TranscriptionResult
  parse : Except GoError ParsedRecipe
  creator : Except GoError Creator
  create : Except GoError Tutorial
  instructions : Option GoError
  reload : Except GoError Tutorial

/-- A handler whose services answer as the script says; the world counts the calls
made on the services. -/
def Script.handler (s : Script) : Handler Nat :=
  { decodeBody := fun _ => s.decode
    tiktok :=
      { ExtractAudio := fun _ w => (s.extract, w + 1)
        Cleanup := fun _ w => w + 1 }
    transcription := { Transcribe := fun _ w => (s.transcribe, w + 1) }
    parser := { Parse := fun _ _ w => (s.parse, w + 1) }
    db :=
      { GetOrCreateCreator := fun _ _ w => (s.creator, w + 1)
        GetTutorialByVideoID := fun _ w => (s.lookup, w + 1)
        CreateTutorial := fun _ w => (s.create, w + 1)
        CreateInstructions := fun _ _ w => (s.instructions, w + 1)
        GetTutorialWithInstructions := fun _ w => (s.reload, w + 1) } }

/-- A request for a direct video URL. -/
def sampleRequest : TranscribeRequest :=
  { URL := "https://www.tiktok.com/@synthwiz/video/7301" }

/-- The metadata of the sample video. -/
def sampleVideo : tiktok.VideoInfo :=
  { VideoID := "7301", CreatorName := "Synth Wiz", CreatorHandle := "synthwiz",
    Title := "Reese bass in two minutes", AudioPath := "/tmp/sdr-downloads/7301.mp3" }

/-- A creator row. -/
def sampleCreator : Creator :=
  { ID := "c-1", TiktokHandle := "synthwiz", DisplayName := "Synth Wiz", AvatarURL := "",
    IsClaimed := false, CreatedAt := 10 }

/-- A tutorial row as the store returns it after an insert: no embedded creator and no
instructions. -/
def sampleTutorial : Tutorial :=
  { ID := "t-1", CreatorID := "c-1", TiktokURL := "https://www.tiktok.com/@synthwiz/video/7301",
    TiktokVideoID := "7301", Title := "Reese Bass", SoundType := "bass",
    RawTranscription := "start with a saw wave", Status := "pending",
    CreatedAt := 11, UpdatedAt := 11, Creator := none, Instructions := [] }

/-- A parsed recipe with one step. -/
def sampleRecipe : ParsedRecipe :=
  { Title := "Reese Bass", SoundType := "bass", CreatorName := "Synth Wiz",
    Instructions :=
      [{ StepNumber := 1, Description := "Load a saw wave", AbletonDevice := "Wavetable",
         Parameters := [("osc", "saw")], Notes := "" }],
    IsSoundDesign := true }

/-- A run in which every stage succeeds and the video is new. -/
def happyScript : Script :=
  { decode := .ok sampleRequest
    extract := .ok sampleVideo
    lookup := (none, none)
    transcribe := .ok { Text := "start with a saw wave" }
    parse := .ok sampleRecipe
    creator := .ok sampleCreator
    create := .ok sampleTutorial
    instructions := none
    reload := .ok { sampleTutorial with Creator := some sampleCreator } }

/-- The same run when the video has been transcribed before. -/
def hitScript : Script :=
  { happyScript with lookup := (some sampleTutorial, none) }

/-- The same run when the recipe is judged not to be sound design. -/
def offTopicScript : Script :=
  { happyScript with parse := .ok { sampleRecipe with IsSoundDesign := false } }

/-- The same run when `yt-dlp` fails. -/
def extractFailScript : Script :=
  { happyScript with extract := .error "failed to get video info: exit status 1" }

/-- The same run when the body does not decode. -/
def badBodyScript : Script :=
  { happyScript with decode := .error "unexpected end of JSON input" }

/-- The same run when the step insert fails and the reload fails too. -/
def stepFailScript : Script :=
  { happyScript with
    instructions := some "failed to create instruction 1: supabase error (status 500): "
    reload := .error "tutorial not found" }

end handlers

namespace database

open models

/-! ### The inserts of `CreateInstructions`, one by one -/

/-- The call of `request` in the loop body of `CreateInstructions` (lines 155 to 164),
run in a given state. -/
def insertStep {σ : Type} (env : Backend σ) (s : Service) (tutorialID : String)
    (inst : ParsedInstruction) (w : Wire σ) : Except GoError (Option Unit) × Wire σ :=
  request env s "POST" "/instructions" (some (newInst tutorialID inst))
    (none : Option (String → Except GoError Unit)) w

/-- The arguments of that call. -/
def insertCall (tutorialID : String) (inst : ParsedInstruction) : RequestCall :=
  { method := "POST", endpoint := "/instructions", body := some (newInst tutorialID inst) }

/-- The request that the call hands to the HTTP client. -/
def insertRequest (s : Service) (tutorialID : String) (inst : ParsedInstruction) :
    HttpRequest :=
  buildRequest s "POST" "/instructions" (some (newInst tutorialID inst))

/-- The state reached from `w` once the inserts of the steps `issued` have been issued one
after the other, in the order of the list. -/
def afterInserts {σ : Type} (env : Backend σ) (s : Service) (tutorialID : String)
    (issued : List ParsedInstruction) (w : Wire σ) : Wire σ :=
  issued.foldl (fun w1 inst => (insertStep env s tutorialID inst w1).2) w

/-- Every insert of `steps` succeeds when the inserts are issued in order from `w`. -/
def AllInsertsSucceed {σ : Type} (env : Backend σ) (s : Service) (tutorialID : String)
    (steps : List ParsedInstruction) (w : Wire σ) : Prop :=
  ∀ pre inst post, steps = pre ++ inst :: post →
    ∃ r, (insertStep env s tutorialID inst (afterInserts env s tutorialID pre w)).1 = .ok r

/-- The insert of `inst`, issued after those of `pre`, is the first to fail, with error
`err`: it is the insert number `pre.length + 1`. -/
def FirstFailingInsert {σ : Type} (env : Backend σ) (s : Service) (tutorialID : String)
    (pre : List ParsedInstruction) (inst : ParsedInstruction) (err : GoError) (w : Wire σ) :
    Prop :=
  AllInsertsSucceed env s tutorialID pre w ∧
    (insertStep env s tutorialID inst (afterInserts env s tutorialID pre w)).1 = .error err

/-! ### A scripted store, for running the gateway on concrete outcomes -/

/-- A backend whose store accepts the first request it receives and answers every later
one with status 500; the world counts the requests received. -/
def flakyBackend : Backend Nat :=
  { now := fun w => (100, w)
    newRequest := fun _ _ => none
    roundTrip := fun _ w => (if w = 0 then .done 201 "" else .done 500 "row rejected", w + 1)
    unmarshalCreators := fun _ => .ok []
    unmarshalTutorials := fun _ => .ok [] }

/-- A service against a local store. -/
def sampleService : Service := NewService "http://localhost:54321" "anon-key"

/-- A first step. -/
def stepOne : ParsedInstruction :=
  { StepNumber := 1, Description := "Load a saw wave", AbletonDevice := "Wavetable",
    Parameters := [("osc", "saw")], Notes := "" }

/-- A second step. -/
def stepTwo : ParsedInstruction :=
  { StepNumber := 2, Description := "Detune the second oscillator",
    AbletonDevice := "Wavetable", Parameters := [("detune", "12 ct")], Notes := "" }

/-- A third step. -/
def stepThree : ParsedInstruction :=
  { StepNumber := 3, Description := "Add saturation", AbletonDevice := "Saturator",
    Parameters := [], Notes := "drive to taste" }

/-- Three steps, numbered by the caller. -/
def sampleSteps : List ParsedInstruction := [stepOne, stepTwo, stepThree]

/-- The state before any call. -/
def freshWire : Wire Nat := { world := 0, sent := [], calls := [] }

end database

namespace handlers

open models

/-- The shape of a response of `POST /api/transcribe`, in the words of the specification:
the status is 200, 201, 400 or 500; `success` is true exactly for 200 and 201; the tutorial
is present exactly when `success` is true; a failure carries a non-empty message. -/
def WellFormedResponse (status : Nat) (data : TranscribeResponse) : Prop :=
  (status = 200 ∨ status = 201 ∨ status = 400 ∨ status = 500) ∧
    (data.Success = true ↔ (status = 200 ∨ status = 201)) ∧
    (data.Tutorial.isSome = true ↔ data.Success = true) ∧
    (data.Success = false → data.Message ≠ "")

/-- The same run as `happyScript` when the idempotency lookup itself fails. -/
def lookupFailScript : Script :=
  { happyScript with lookup := (none, some "supabase error (status 503): ") }

end handlers

namespace handlers

open models

/-- The handler `h` with the answer of `GetTutorialByVideoID` replaced by "no tutorial, no
error"; the lookup still runs and leaves the state it leaves under `h`. -/
def withLookupMiss {σ : Type} (h : Handler σ) : Handler σ :=
  { h with
    db :=
      { h.db with
        GetTutorialByVideoID := fun videoID w =>
          ((none, none), (h.db.GetTutorialByVideoID videoID w).2) } }

end handlers

/-! ## `config.go` -/

namespace config

/-- The process environment as `os.Getenv` reads it: the value of a variable, or the empty
string when the variable is not set. -/
abbrev Environ := String → String

/-- The struct `config.Config`. -/
structure Config where
  Port : String
  GroqAPIKey : String
  ClaudeAPIKey : String
  SupabaseURL : String
  SupabaseAnonKey : String
deriving DecidableEq, Repr

/-- Function `getEnv`: the value of the variable unless it is empty, else the fallback. -/
def getEnv (environ : Environ) (key fallback : String) : String :=
  if environ key ≠ "" then environ key else fallback

/-- Function `Load`. The call `godotenv.Load()` (a library outside this repository, which
may add the variables of a `.env` file to the environment) is the function `godotenvLoad`;
the five variables are read afterwards. The error result is always nil. -/
def Load (godotenvLoad : Environ → Environ) (environ : Environ) : Except GoError Config :=
  let loaded := godotenvLoad environ
  .ok
    { Port := getEnv loaded "PORT" "8080"
      GroqAPIKey := loaded "GROQ_API_KEY"
      ClaudeAPIKey := loaded "CLAUDE_API_KEY"
      SupabaseURL := loaded "SUPABASE_URL"
      SupabaseAnonKey := loaded "SUPABASE_ANON_KEY" }

end config

/-! ## `cmd/api/main.go` -/

namespace api

open config

/-- What a run of `main` does, step by step. `fatal` is `log.Fatal` or `log.Fatalf`, which
ends the process. -/
inductive StartupEvent where
  | fatal (message : String) : StartupEvent
  | newTiktokService : StartupEvent
  | newTranscriptionService (apiKey : String) : StartupEvent
  | newParserService (apiKey : String) : StartupEvent
  | newDatabaseService (supabaseURL anonKey : String) : StartupEvent
  | newHandler : StartupEvent
  | newRouter : StartupEvent
  | use (middleware : String) : StartupEvent
  | route (method pattern handler : String) : StartupEvent
  | listenAndServe (addr : String) : StartupEvent
deriving DecidableEq, Repr

/-- Lines 38 to 69 of `main`: the services, the handler, the router with its middleware
and routes, and the call of `http.ListenAndServe`; `serve addr` is the error with which
that call returns, or `none` when it does not return. -/
def startServer (cfg : Config) (serve : String → Option GoError) : List StartupEvent :=
  [.newTiktokService,
    .newTranscriptionService cfg.GroqAPIKey,
    .newParserService cfg.ClaudeAPIKey,
    .newDatabaseService cfg.SupabaseURL cfg.SupabaseAnonKey,
    .newHandler,
    .newRouter,
    .use "middleware.Logger",
    .use "middleware.Recoverer",
    .use "middleware.RealIP",
    .use "cors.Handler",
    .route "GET" "/health" "HealthCheck",
    .route "POST" "/api/transcribe" "Transcribe",
    .listenAndServe (":" ++ cfg.Port)] ++
  match serve (":" ++ cfg.Port) with
  | some err => [.fatal ("Server failed: " ++ err)]
  | none => []

/-- Function `main`: the events of a run, in order. -/
def main (godotenvLoad : Environ → Environ) (environ : Environ)
    (serve : String → Option GoError) : List StartupEvent :=
  match Load godotenvLoad environ with
  | .error err => [.fatal ("Failed to load config: " ++ err)]
  | .ok cfg =>
    if cfg.GroqAPIKey = "" then [.fatal "GROQ_API_KEY is required"]
    else if cfg.ClaudeAPIKey = "" then [.fatal "CLAUDE_API_KEY is required"]
    else if cfg.SupabaseURL = "" ∨ cfg.SupabaseAnonKey = "" then
      [.fatal "SUPABASE_URL and SUPABASE_ANON_KEY are required"]
    else startServer cfg serve

/-- Whether an event sets up a service, the handler, the router, a middleware or a route,
or starts listening. -/
def StartupEvent.isSetup : StartupEvent → Bool
  | .fatal _ => false
  | _ => true

/-- Whether an event is the call of `http.ListenAndServe`. -/
def StartupEvent.isListen : StartupEvent → Bool
  | .listenAndServe _ => true
  | _ => false

/-- The four required variables are all non-empty. -/
def CredentialsPresent (environ : Environ) : Prop :=
  environ "GROQ_API_KEY" ≠ "" ∧ environ "CLAUDE_API_KEY" ≠ "" ∧
    environ "SUPABASE_URL" ≠ "" ∧ environ "SUPABASE_ANON_KEY" ≠ ""

/-- An environment with the three providers configured and no port. -/
def sampleEnviron : Environ := fun key =>
  if key = "GROQ_API_KEY" then "gsk-1"
  else if key = "CLAUDE_API_KEY" then "sk-ant-1"
  else if key = "SUPABASE_URL" then "http://localhost:54321"
  else if key = "SUPABASE_ANON_KEY" then "anon-key"
  else ""

/-- The same environment without the Claude key. -/
def noClaudeEnviron : Environ := fun key =>
  if key = "CLAUDE_API_KEY" then "" else sampleEnviron key

end api

/-! ## Theorems: regular expressions -/

namespace Regex

theorem nullable_iff (r : Regex) : nullable r = true ↔ Lang r [] := by
  induction r with
  | empty => simp [nullable, Lang]
  | eps => simp [nullable, Lang]
  | cls rs => simp [nullable, Lang]
  | seq a b iha ihb =>
    simp only [nullable, Lang, Bool.and_eq_true, iha, ihb]
    constructor
    · intro h
      exact ⟨[], [], rfl, h.1, h.2⟩
    · rintro ⟨x, y, hxy, hx, hy⟩
      have hnil := List.append_eq_nil.mp hxy.symm
      rw [hnil.1] at hx
      rw [hnil.2] at hy
      exact ⟨hx, hy⟩
  | alt a b iha ihb => simp only [nullable, Lang, Bool.or_eq_true, iha, ihb]
  | star a _ =>
    simp only [nullable, Lang, true_iff]
    exact ⟨[], rfl, by simp⟩

theorem deriv_iff (c : Char) (r : Regex) : ∀ s, Lang (deriv c r) s ↔ Lang r (c :: s) := by
  induction r with
  | empty => intro s; simp [deriv, Lang]
  | eps => intro s; simp [deriv, Lang]
  | cls rs =>
    intro s
    by_cases hc : inRanges rs c = true
    · simp only [deriv, hc, Lang, if_true]
      constructor
      · intro hs
        exact ⟨c, by rw [hs], hc⟩
      · rintro ⟨d, hd, _⟩
        simp only [List.cons.injEq] at hd
        exact hd.2
    · simp only [deriv, hc, Lang, Bool.false_eq_true, if_false, false_iff]
      rintro ⟨d, hd, hin⟩
      simp only [List.cons.injEq] at hd
      rw [← hd.1] at hin
      exact hc hin
  | seq a b iha ihb =>
    intro s
    have key : (∃ x y, s = x ++ y ∧ Lang (deriv c a) x ∧ Lang b y) ↔
        ∃ x y, c :: s = x ++ y ∧ x ≠ [] ∧ Lang a x ∧ Lang b y := by
      constructor
      · rintro ⟨x, y, hs, hx, hy⟩
        exact ⟨c :: x, y, by simp [hs], by simp, (iha x).mp hx, hy⟩
      · rintro ⟨x, y, hs, hne, hx, hy⟩
        cases x with
        | nil => exact absurd rfl hne
        | cons d x =>
          simp only [List.cons_append, List.cons.injEq] at hs
          rw [← hs.1] at hx
          exact ⟨x, y, hs.2, (iha x).mpr hx, hy⟩
    by_cases hn : nullable a = true
    · simp only [deriv, hn, if_true, Lang, key, ihb]
      constructor
      · rintro (⟨x, y, hs, _, hx, hy⟩ | hb)
        · exact ⟨x, y, hs, hx, hy⟩
        · exact ⟨[], c :: s, rfl, (nullable_iff a).mp hn, hb⟩
      · rintro ⟨x, y, hs, hx, hy⟩
        cases x with
        | nil =>
          right
          simp only [List.nil_append] at hs
          rw [hs]
          exact hy
        | cons d x => exact Or.inl ⟨d :: x, y, hs, by simp, hx, hy⟩
    · simp only [deriv, hn, Lang, key, Bool.false_eq_true, if_false]
      constructor
      · rintro ⟨x, y, hs, _, hx, hy⟩
        exact ⟨x, y, hs, hx, hy⟩
      · rintro ⟨x, y, hs, hx, hy⟩
        refine ⟨x, y, hs, ?_, hx, hy⟩
        intro hnil
        rw [hnil] at hx
        exact hn ((nullable_iff a).mpr hx)
  | alt a b iha ihb => intro s; simp only [deriv, Lang, iha, ihb]
  | star a iha =>
    intro s
    simp only [deriv, Lang]
    constructor
    · rintro ⟨x, y, hs, hx, L, hy, hL⟩
      refine ⟨(c :: x) :: L, by simp [hs, hy], ?_⟩
      intro z hz
      rcases List.mem_cons.mp hz with hz | hz
      · rw [hz]
        exact ⟨by simp, (iha x).mp hx⟩
      · exact hL z hz
    · rintro ⟨L, hs, hL⟩
      cases L with
      | nil => simp at hs
      | cons z L =>
        have hz := hL z (List.mem_cons_self z L)
        cases z with
        | nil => exact absurd rfl hz.1
        | cons d z =>
          simp only [List.flatten_cons, List.cons_append, List.cons.injEq] at hs
          have hz2 := hz.2
          rw [← hs.1] at hz2
          exact ⟨z, L.flatten, hs.2, (iha z).mpr hz2, L, rfl,
            fun y hy => hL y (List.mem_cons_of_mem _ hy)⟩

theorem matchPrefix_iff (r : Regex) (s : List Char) :
    matchPrefix r s = true ↔ PrefixLang r s := by
  induction s generalizing r with
  | nil =>
    simp only [matchPrefix, nullable_iff, PrefixLang]
    constructor
    · intro h
      exact ⟨[], [], rfl, h⟩
    · rintro ⟨p, t, hs, hp⟩
      rw [(List.append_eq_nil.mp hs.symm).1] at hp
      exact hp
  | cons c s ih =>
    simp only [matchPrefix, Bool.or_eq_true, nullable_iff, ih, PrefixLang]
    constructor
    · rintro (h | ⟨p, t, hs, hp⟩)
      · exact ⟨[], c :: s, rfl, h⟩
      · exact ⟨c :: p, t, by simp [hs], (deriv_iff c r p).mp hp⟩
    · rintro ⟨p, t, hs, hp⟩
      cases p with
      | nil => exact Or.inl hp
      | cons d p =>
        simp only [List.cons_append, List.cons.injEq] at hs
        rw [← hs.1] at hp
        exact Or.inr ⟨p, t, hs.2, (deriv_iff c r p).mpr hp⟩

end Regex

namespace Regex

theorem Lang_seq (a b : Regex) (s : List Char) :
    Lang (seq a b) s ↔ ∃ x y, s = x ++ y ∧ Lang a x ∧ Lang b y := Iff.rfl

theorem Lang_cls (rs : List (Char × Char)) (s : List Char) :
    Lang (cls rs) s ↔ ∃ c, s = [c] ∧ inRanges rs c = true := Iff.rfl

theorem Lang_star (a : Regex) (s : List Char) :
    Lang (star a) s ↔ ∃ L : List (List Char), s = L.flatten ∧ ∀ x ∈ L, x ≠ [] ∧ Lang a x :=
  Iff.rfl

theorem inRanges_single (c d : Char) : inRanges [(c, c)] d = true ↔ d = c := by
  simp only [inRanges, List.any_cons, List.any_nil, Bool.or_false, Bool.and_eq_true,
    decide_eq_true_eq]
  constructor
  · rintro ⟨h1, h2⟩
    exact Char.ext (UInt32.le_antisymm h2 h1)
  · intro h
    rw [h]
    exact ⟨Char.le_refl _, Char.le_refl _⟩

theorem Lang_lit (c : Char) (s : List Char) : Lang (lit c) s ↔ s = [c] := by
  rw [lit, Lang_cls]
  constructor
  · rintro ⟨d, hs, hd⟩
    rw [hs, (inRanges_single c d).mp hd]
  · intro hs
    exact ⟨c, hs, (inRanges_single c c).mpr rfl⟩

theorem Lang_str (l s : List Char) : Lang (str l) s ↔ s = l := by
  induction l generalizing s with
  | nil => exact Iff.rfl
  | cons c l ih =>
    rw [str, Lang_seq]
    constructor
    · rintro ⟨x, y, hs, hx, hy⟩
      rw [hs, (Lang_lit c x).mp hx, (ih y).mp hy]
      rfl
    · intro hs
      exact ⟨[c], l, by rw [hs]; rfl, (Lang_lit c _).mpr rfl, (ih l).mpr rfl⟩

theorem Lang_opt (a : Regex) (s : List Char) : Lang (opt a) s ↔ Lang a s ∨ s = [] := Iff.rfl

theorem Lang_star_cls (rs : List (Char × Char)) (s : List Char) :
    Lang (star (cls rs)) s ↔ ∀ c ∈ s, inRanges rs c = true := by
  rw [Lang_star]
  constructor
  · rintro ⟨L, hs, hL⟩ c hc
    rw [hs, List.mem_flatten] at hc
    obtain ⟨x, hx, hcx⟩ := hc
    obtain ⟨_, d, hd, hin⟩ := hL x hx
    rw [hd, List.mem_singleton] at hcx
    rw [hcx]
    exact hin
  · intro h
    refine ⟨s.map (fun c => [c]), ?_, ?_⟩
    · clear h
      induction s with
      | nil => rfl
      | cons c s ih => simp [← ih]
    · intro x hx
      obtain ⟨c, hc, hcx⟩ := List.mem_map.mp hx
      rw [← hcx]
      exact ⟨by simp, c, rfl, h c hc⟩

theorem Lang_plus_cls (rs : List (Char × Char)) (s : List Char) :
    Lang (plus (cls rs)) s ↔ s ≠ [] ∧ ∀ c ∈ s, inRanges rs c = true := by
  rw [plus, Lang_seq]
  constructor
  · rintro ⟨x, y, hs, ⟨c, hx, hc⟩, hy⟩
    rw [Lang_star_cls] at hy
    rw [hs, hx]
    refine ⟨by simp, ?_⟩
    intro d hd
    rcases List.mem_cons.mp hd with hd | hd
    · rw [hd]; exact hc
    · exact hy d hd
  · rintro ⟨hne, h⟩
    cases s with
    | nil => exact absurd rfl hne
    | cons c s =>
      exact ⟨[c], s, rfl, ⟨c, rfl, h c (List.mem_cons_self c s)⟩,
        (Lang_star_cls rs s).mpr (fun d hd => h d (List.mem_cons_of_mem c hd))⟩

theorem PrefixLang_seq (a b : Regex) (s : List Char) :
    PrefixLang (seq a b) s ↔ ∃ x s1, s = x ++ s1 ∧ Lang a x ∧ PrefixLang b s1 := by
  constructor
  · rintro ⟨p, t, hs, x, y, hp, hx, hy⟩
    exact ⟨x, y ++ t, by rw [hs, hp, List.append_assoc], hx, y, t, rfl, hy⟩
  · rintro ⟨x, s1, hs, hx, p, t, hs1, hp⟩
    exact ⟨x ++ p, t, by rw [hs, hs1, List.append_assoc], x, p, rfl, hx, hp⟩

theorem PrefixLang_str_seq (l : List Char) (b : Regex) (s : List Char) :
    PrefixLang (seq (str l) b) s ↔ ∃ s1, s = l ++ s1 ∧ PrefixLang b s1 := by
  rw [PrefixLang_seq]
  constructor
  · rintro ⟨x, s1, hs, hx, hb⟩
    exact ⟨s1, by rw [hs, (Lang_str l x).mp hx], hb⟩
  · rintro ⟨s1, hs, hb⟩
    exact ⟨l, s1, hs, (Lang_str l l).mpr rfl, hb⟩

theorem PrefixLang_opt_seq (a b : Regex) (s : List Char) :
    PrefixLang (seq (opt a) b) s ↔ PrefixLang b s ∨ PrefixLang (seq a b) s := by
  rw [PrefixLang_seq, PrefixLang_seq]
  constructor
  · rintro ⟨x, s1, hs, hx | hx, hb⟩
    · exact Or.inr ⟨x, s1, hs, hx, hb⟩
    · left
      rw [hs, hx]
      exact hb
  · rintro (hb | ⟨x, s1, hs, hx, hb⟩)
    · exact ⟨[], s, rfl, Or.inr rfl, hb⟩
    · exact ⟨x, s1, hs, Or.inl hx, hb⟩

theorem PrefixLang_plus_cls (rs : List (Char × Char)) (s : List Char) :
    PrefixLang (plus (cls rs)) s ↔
      ∃ p t, s = p ++ t ∧ p ≠ [] ∧ ∀ c ∈ p, inRanges rs c = true := by
  simp only [PrefixLang, Lang_plus_cls]

theorem PrefixLang_plus_cls_seq (rs : List (Char × Char)) (b : Regex) (s : List Char) :
    PrefixLang (seq (plus (cls rs)) b) s ↔
      ∃ p s1, s = p ++ s1 ∧ (p ≠ [] ∧ ∀ c ∈ p, inRanges rs c = true) ∧ PrefixLang b s1 := by
  simp only [PrefixLang_seq, Lang_plus_cls]

end Regex

namespace tiktok
open Regex

theorem val_zero : ('0' : Char).val = 48 := by decide
theorem val_nine : ('9' : Char).val = 57 := by decide
theorem val_upperA : ('A' : Char).val = 65 := by decide
theorem val_upperZ : ('Z' : Char).val = 90 := by decide
theorem val_lowerA : ('a' : Char).val = 97 := by decide
theorem val_lowerZ : ('z' : Char).val = 122 := by decide

theorem inRanges_digitClass (c : Char) : inRanges digitClass c = true ↔ c.isDigit = true := by
  simp only [inRanges, digitClass, Char.isDigit, List.any_cons, List.any_nil, Bool.or_false,
    Bool.and_eq_true, decide_eq_true_eq, Char.le_def, val_zero, val_nine, ge_iff_le]

theorem inRanges_wordClass (c : Char) : inRanges wordClass c = true ↔ isWordChar c = true := by
  have hu : (('_' : Char) ≤ c ∧ c ≤ '_') ↔ c = '_' := by
    constructor
    · rintro ⟨h1, h2⟩
      exact Char.ext (UInt32.le_antisymm h2 h1)
    · intro h
      rw [h]
      exact ⟨Char.le_refl _, Char.le_refl _⟩
  simp only [inRanges, wordClass, isWordChar, Char.isAlphanum, Char.isAlpha, Char.isUpper,
    Char.isLower, Char.isDigit, List.any_cons, List.any_nil, Bool.or_false, Bool.and_eq_true,
    Bool.or_eq_true, decide_eq_true_eq, beq_iff_eq, hu]
  simp only [Char.le_def, val_zero, val_nine, val_upperA, val_upperZ, val_lowerA, val_lowerZ,
    ge_iff_le]
  tauto

theorem inRanges_append (a b : List (Char × Char)) (c : Char) :
    inRanges (a ++ b) c = (inRanges a c || inRanges b c) := by
  simp only [inRanges, List.any_append]

theorem inRanges_handleClass (c : Char) :
    inRanges handleClass c = true ↔ isHandleChar c = true := by
  have hsplit : handleClass = wordClass ++ ([('.', '.')] ++ [('-', '-')]) := rfl
  rw [hsplit, inRanges_append, inRanges_append, isHandleChar, Bool.or_eq_true, Bool.or_eq_true,
    Bool.or_eq_true, Bool.or_eq_true, inRanges_wordClass, inRanges_single, inRanges_single,
    beq_iff_eq, beq_iff_eq, or_assoc]

end tiktok

/-! ## Theorems: `ValidateURL` -/

namespace tiktok
open Regex

theorem Lang_schemeRe (x : List Char) :
    Lang schemeRe x ↔ x = "http://".data ∨ x = "https://".data := by
  rw [schemeRe, Lang_seq]
  constructor
  · rintro ⟨a, b, hx, ha, hb⟩
    rw [Lang_str] at ha
    rw [Lang_seq] at hb
    obtain ⟨c, d, hb, hc, hd⟩ := hb
    rw [Lang_str] at hd
    rw [Lang_opt, Lang_lit] at hc
    rcases hc with hc | hc
    · right
      rw [hx, ha, hb, hc, hd]
      rfl
    · left
      rw [hx, ha, hb, hc, hd]
      rfl
  · rintro (hx | hx)
    · exact ⟨"http".data, "://".data, by rw [hx]; rfl, (Lang_str _ _).mpr rfl,
        (Lang_seq _ _ _).mpr ⟨[], "://".data, rfl, Or.inr rfl, (Lang_str _ _).mpr rfl⟩⟩
    · exact ⟨"http".data, "s://".data, by rw [hx]; rfl, (Lang_str _ _).mpr rfl,
        (Lang_seq _ _ _).mpr ⟨['s'], "://".data, rfl, Or.inl ((Lang_lit _ _).mpr rfl),
          (Lang_str _ _).mpr rfl⟩⟩

theorem PrefixLang_scheme_seq (b : Regex) (s : List Char) :
    PrefixLang (seq schemeRe b) s ↔
      ∃ scheme rest : List Char,
        (scheme = "http://".data ∨ scheme = "https://".data) ∧ s = scheme ++ rest ∧
          PrefixLang b rest := by
  rw [PrefixLang_seq]
  constructor
  · rintro ⟨x, s1, hs, hx, hb⟩
    exact ⟨x, s1, (Lang_schemeRe x).mp hx, hs, hb⟩
  · rintro ⟨x, s1, hx, hs, hb⟩
    exact ⟨x, s1, hs, (Lang_schemeRe x).mpr hx, hb⟩

theorem PrefixLang_run (rs : List (Char × Char)) (p : Char → Bool)
    (hp : ∀ c, inRanges rs c = true ↔ p c = true) (s : List Char) :
    PrefixLang (plus (cls rs)) s ↔ ∃ run tail, IsRun p run ∧ s = run ++ tail := by
  rw [PrefixLang_plus_cls]
  constructor
  · rintro ⟨r, t, hs, hne, hall⟩
    exact ⟨r, t, ⟨hne, fun c hc => (hp c).mp (hall c hc)⟩, hs⟩
  · rintro ⟨r, t, ⟨hne, hall⟩, hs⟩
    exact ⟨r, t, hs, hne, fun c hc => (hp c).mpr (hall c hc)⟩

theorem PrefixLang_run_seq (rs : List (Char × Char)) (p : Char → Bool)
    (hp : ∀ c, inRanges rs c = true ↔ p c = true) (b : Regex) (s : List Char) :
    PrefixLang (seq (plus (cls rs)) b) s ↔
      ∃ run s1, IsRun p run ∧ s = run ++ s1 ∧ PrefixLang b s1 := by
  rw [PrefixLang_plus_cls_seq]
  constructor
  · rintro ⟨r, t, hs, ⟨hne, hall⟩, hb⟩
    exact ⟨r, t, ⟨hne, fun c hc => (hp c).mp (hall c hc)⟩, hs, hb⟩
  · rintro ⟨r, t, ⟨hne, hall⟩, hs, hb⟩
    exact ⟨r, t, hs, ⟨hne, fun c hc => (hp c).mpr (hall c hc)⟩, hb⟩

theorem PrefixLang_www_seq (b : Regex) (s : List Char) :
    PrefixLang (seq (opt (str "www.".data)) b) s ↔
      ∃ www s1, IsOptionalWww www ∧ s = www ++ s1 ∧ PrefixLang b s1 := by
  rw [PrefixLang_opt_seq, PrefixLang_str_seq]
  constructor
  · rintro (hb | ⟨s1, hs, hb⟩)
    · exact ⟨[], s, Or.inl rfl, rfl, hb⟩
    · exact ⟨"www.".data, s1, Or.inr rfl, hs, hb⟩
  · rintro ⟨www, s1, hw | hw, hs, hb⟩
    · left
      rw [hs, hw]
      exact hb
    · right
      exact ⟨s1, by rw [hs, hw], hb⟩

theorem directVideo_iff (rest : List Char) :
    PrefixLang (seq (opt (str "www.".data)) (seq (str "tiktok.com/@".data)
      (seq (plus (cls handleClass)) (seq (str "/video/".data) (plus (cls digitClass))))))
      rest ↔ DirectVideoShape rest := by
  rw [PrefixLang_www_seq]
  simp only [PrefixLang_str_seq, PrefixLang_run_seq handleClass isHandleChar inRanges_handleClass,
    PrefixLang_run digitClass Char.isDigit inRanges_digitClass, DirectVideoShape]
  constructor
  · rintro ⟨www, s1, hw, hs, s2, hs1, handle, s3, hh, hs2, s4, hs3, digits, tail, hd, hs4⟩
    refine ⟨www, handle, digits, tail, hw, hh, hd, ?_⟩
    rw [hs, hs1, hs2, hs3, hs4]
    simp only [List.append_assoc]
  · rintro ⟨www, handle, digits, tail, hw, hh, hd, hs⟩
    refine ⟨www, _, hw, ?_, _, rfl, handle, _, hh, rfl, _, rfl, digits, tail, hd, rfl⟩
    rw [hs]
    simp only [List.append_assoc]

theorem vm_iff (rest : List Char) :
    PrefixLang (seq (str "vm.tiktok.com/".data) (plus (cls wordClass))) rest ↔
      VmShape rest := by
  simp only [PrefixLang_str_seq, PrefixLang_run wordClass isWordChar inRanges_wordClass, VmShape]
  constructor
  · rintro ⟨s1, hs, word, tail, hw, hs1⟩
    refine ⟨word, tail, hw, ?_⟩
    rw [hs, hs1]
    simp only [List.append_assoc]
  · rintro ⟨word, tail, hw, hs⟩
    refine ⟨_, ?_, word, tail, hw, rfl⟩
    rw [hs]
    simp only [List.append_assoc]

theorem shortLink_iff (rest : List Char) :
    PrefixLang (seq (opt (str "www.".data)) (seq (str "tiktok.com/t/".data)
      (plus (cls wordClass)))) rest ↔ ShortLinkShape rest := by
  rw [PrefixLang_www_seq]
  simp only [PrefixLang_str_seq, PrefixLang_run wordClass isWordChar inRanges_wordClass,
    ShortLinkShape]
  constructor
  · rintro ⟨www, s1, hw, hs, s2, hs1, word, tail, hr, hs2⟩
    refine ⟨www, word, tail, hw, hr, ?_⟩
    rw [hs, hs1, hs2]
    simp only [List.append_assoc]
  · rintro ⟨www, word, tail, hw, hr, hs⟩
    refine ⟨www, _, hw, ?_, _, rfl, word, tail, hr, rfl⟩
    rw [hs]
    simp only [List.append_assoc]

theorem videoPattern_iff (s : List Char) :
    matchPrefix videoPattern s = true ↔
      ∃ scheme rest : List Char,
        (scheme = "http://".data ∨ scheme = "https://".data) ∧ s = scheme ++ rest ∧
          DirectVideoShape rest := by
  rw [matchPrefix_iff, videoPattern, PrefixLang_scheme_seq]
  exact exists_congr fun _ => exists_congr fun rest =>
    and_congr_right fun _ => and_congr_right fun _ => directVideo_iff rest

theorem vmPattern_iff (s : List Char) :
    matchPrefix vmPattern s = true ↔
      ∃ scheme rest : List Char,
        (scheme = "http://".data ∨ scheme = "https://".data) ∧ s = scheme ++ rest ∧
          VmShape rest := by
  rw [matchPrefix_iff, vmPattern, PrefixLang_scheme_seq]
  exact exists_congr fun _ => exists_congr fun rest =>
    and_congr_right fun _ => and_congr_right fun _ => vm_iff rest

theorem shortPattern_iff (s : List Char) :
    matchPrefix shortPattern s = true ↔
      ∃ scheme rest : List Char,
        (scheme = "http://".data ∨ scheme = "https://".data) ∧ s = scheme ++ rest ∧
          ShortLinkShape rest := by
  rw [matchPrefix_iff, shortPattern, PrefixLang_scheme_seq]
  exact exists_congr fun _ => exists_congr fun rest =>
    and_congr_right fun _ => and_congr_right fun _ => shortLink_iff rest

/-- Method `ValidateURL` accepts exactly the URLs of the three shapes. -/
theorem validateURL_accepts_iff (u : String) : ValidateURL u = true ↔ AcceptedURL u := by
  rw [ValidateURL, patterns, List.any_cons, List.any_cons, List.any_cons, List.any_nil,
    Bool.or_false, Bool.or_eq_true, Bool.or_eq_true, videoPattern_iff, vmPattern_iff,
    shortPattern_iff, AcceptedURL]
  constructor
  · rintro (⟨sc, rest, hsc, hu, h⟩ | ⟨sc, rest, hsc, hu, h⟩ | ⟨sc, rest, hsc, hu, h⟩)
    · exact ⟨sc, rest, hsc, hu, Or.inl h⟩
    · exact ⟨sc, rest, hsc, hu, Or.inr (Or.inl h)⟩
    · exact ⟨sc, rest, hsc, hu, Or.inr (Or.inr h)⟩
  · rintro ⟨sc, rest, hsc, hu, h | h | h⟩
    · exact Or.inl ⟨sc, rest, hsc, hu, h⟩
    · exact Or.inr (Or.inl ⟨sc, rest, hsc, hu, h⟩)
    · exact Or.inr (Or.inr ⟨sc, rest, hsc, hu, h⟩)

end tiktok

namespace tiktok
open Regex

theorem split_at_slash (a b x y : List Char) (ha : ∀ c ∈ a, c ≠ '/') (hb : ∀ c ∈ b, c ≠ '/')
    (h : a ++ '/' :: x = b ++ '/' :: y) : a = b ∧ x = y := by
  induction a generalizing b with
  | nil =>
    cases b with
    | nil =>
      simp only [List.nil_append, List.cons.injEq, true_and] at h
      exact ⟨rfl, h⟩
    | cons d b =>
      simp only [List.nil_append, List.cons_append, List.cons.injEq] at h
      exact absurd h.1.symm (hb d (List.mem_cons_self d b))
  | cons c a ih =>
    cases b with
    | nil =>
      simp only [List.nil_append, List.cons_append, List.cons.injEq] at h
      exact absurd h.1 (ha c (List.mem_cons_self c a))
    | cons d b =>
      simp only [List.cons_append, List.cons.injEq] at h
      obtain ⟨hab, hxy⟩ := ih b (fun e he => ha e (List.mem_cons_of_mem c he))
        (fun e he => hb e (List.mem_cons_of_mem d he)) h.2
      exact ⟨by rw [h.1, hab], hxy⟩

theorem handleChar_ne_slash (l : List Char) (hl : ∀ c ∈ l, isHandleChar c = true) :
    ∀ c ∈ l, c ≠ '/' := by
  intro c hc hslash
  have h := hl c hc
  rw [hslash] at h
  exact absurd h (by decide)

theorem directVideoURL_data (handle id : String) :
    (directVideoURL handle id).data =
      "https://".data ++ ("www.".data ++ ("tiktok.com/@".data ++
        (handle.data ++ ("/video/".data ++ id.data)))) := by
  simp [directVideoURL, String.data_append]

theorem validateURL_directVideoURL (handle id : String)
    (hh : IsRun isHandleChar handle.data) :
    ValidateURL (directVideoURL handle id) = true ↔
      ∃ d tail, id.data = d :: tail ∧ d.isDigit = true := by
  rw [validateURL_accepts_iff, AcceptedURL, directVideoURL_data]
  constructor
  · rintro ⟨scheme, rest, hsc | hsc, hu, hshape⟩
    · rw [hsc] at hu
      simp at hu
    · rw [hsc] at hu
      have hrest := List.append_cancel_left hu
      rcases hshape with ⟨www, h2, digits, tail, hw | hw, hr, hd, hs⟩ | ⟨word, tail, _, hs⟩ |
          ⟨www, word, tail, hw | hw, _, hs⟩
      · rw [hs, hw] at hrest
        simp at hrest
      · rw [hs, hw] at hrest
        simp only [List.append_assoc] at hrest
        have h3 := List.append_cancel_left (List.append_cancel_left hrest)
        have h4 := split_at_slash _ _ _ _ (handleChar_ne_slash _ hh.2)
          (handleChar_ne_slash _ hr.2) h3
        have h6 : "video/".data ++ id.data = "video/".data ++ (digits ++ tail) := h4.2
        have h5 : id.data = digits ++ tail := List.append_cancel_left h6
        cases digits with
        | nil => exact absurd rfl hd.1
        | cons d ds => exact ⟨d, ds ++ tail, h5, hd.2 d (List.mem_cons_self d ds)⟩
      · rw [hs] at hrest
        simp at hrest
      · rw [hs, hw] at hrest
        simp at hrest
      · rw [hs, hw] at hrest
        simp at hrest
  · rintro ⟨d, tail, hid, hd⟩
    refine ⟨"https://".data, _, Or.inr rfl, rfl, Or.inl ⟨"www.".data, handle.data, [d], tail,
      Or.inr rfl, hh, ⟨by simp, ?_⟩, ?_⟩⟩
    · intro c hc
      rw [List.mem_singleton.mp hc]
      exact hd
    · rw [hid]
      simp

end tiktok

namespace tiktok

/-- C4: `ValidateURL u` is true exactly when `u` begins with `http://` or `https://`
followed by one of the three accepted shapes (direct video path, `vm.tiktok.com` short
link, `/t/` short link); on every other string it is false. -/
theorem C4_validateURL_iff_accepted_shape (u : String) :
    ValidateURL u = true ↔ AcceptedURL u :=
  validateURL_accepts_iff u

/-- C5, counterexample: the URL `https://www.tiktok.com/@user/video/123abc` has a valid
handle and an `<id>` that is not all decimal digits, and `ValidateURL` accepts it. -/
theorem C5_counterexample :
    IsRun isHandleChar "user".data ∧
      ValidateURL (directVideoURL "user" "123abc") = true ∧
      ¬ (∀ c ∈ "123abc".data, c.isDigit = true) :=
  ⟨⟨by decide, by decide⟩, by decide, by decide⟩

/-- C5, amended: for a URL `https://www.tiktok.com/@<handle>/video/<id>` with a valid
non-empty handle, `ValidateURL` returns true exactly when `<id>` begins with a decimal
digit; what follows the first digit is not inspected. -/
theorem C5_direct_video_id_begins_with_digit (handle id : String)
    (hh : IsRun isHandleChar handle.data) :
    ValidateURL (directVideoURL handle id) = true ↔
      ∃ d tail, id.data = d :: tail ∧ d.isDigit = true :=
  validateURL_directVideoURL handle id hh

/-- Witness of C5 (amended): the handle `user` and the id `42`. -/
theorem C5_direct_video_id_begins_with_digit_witness :
    ValidateURL (directVideoURL "user" "42") = true ↔
      ∃ d tail, "42".data = d :: tail ∧ d.isDigit = true :=
  C5_direct_video_id_begins_with_digit "user" "42" ⟨by decide, by decide⟩

end tiktok

/-! ## Theorems: the `Transcribe` handler -/

namespace handlers
open models

theorem transcribe_of_extracted {σ : Type} (h : Handler σ) (body : String) (w w1 : σ)
    (req : TranscribeRequest) (videoInfo : tiktok.VideoInfo)
    (hdec : h.decodeBody body = .ok req) (hval : tiktok.ValidateURL req.URL = true)
    (hext : h.tiktok.ExtractAudio req.URL w = (.ok videoInfo, w1)) :
    Transcribe h body w =
      (.extractAudio req.URL :: (transcribeDeferred h req videoInfo w1).1 ++
          [.cleanup videoInfo.VideoID],
        h.tiktok.Cleanup videoInfo.VideoID (transcribeDeferred h req videoInfo w1).2) := by
  simp only [Transcribe, hdec, hval, hext, Bool.not_true, Bool.false_eq_true, if_false]

theorem transcribe_of_extract_failed {σ : Type} (h : Handler σ) (body : String) (w w1 : σ)
    (req : TranscribeRequest) (err : GoError)
    (hdec : h.decodeBody body = .ok req) (hval : tiktok.ValidateURL req.URL = true)
    (hext : h.tiktok.ExtractAudio req.URL w = (.error err, w1)) :
    Transcribe h body w =
      ([.extractAudio req.URL,
        respondError StatusInternalServerError "Failed to extract audio from TikTok"], w1) := by
  simp only [Transcribe, hdec, hval, hext, Bool.not_true, Bool.false_eq_true, if_false]

theorem deferred_of_hit {σ : Type} (h : Handler σ) (req : TranscribeRequest)
    (videoInfo : tiktok.VideoInfo) (w1 w2 : σ) (existing : Tutorial) (err : Option GoError)
    (hget : h.db.GetTutorialByVideoID videoInfo.VideoID w1 = ((some existing, err), w2)) :
    transcribeDeferred h req videoInfo w1 =
      ([.getTutorialByVideoID videoInfo.VideoID,
        respondJSON StatusOK
          { Success := true, Message := "Tutorial already exists", Tutorial := some existing }],
        w2) := by
  simp only [transcribeDeferred, hget]

theorem deferred_of_transcribe_failed {σ : Type} (h : Handler σ) (req : TranscribeRequest)
    (videoInfo : tiktok.VideoInfo) (w1 w2 w3 : σ) (err : Option GoError) (e : GoError)
    (hget : h.db.GetTutorialByVideoID videoInfo.VideoID w1 = ((none, err), w2))
    (htr : h.transcription.Transcribe videoInfo.AudioPath w2 = (.error e, w3)) :
    transcribeDeferred h req videoInfo w1 =
      ([.getTutorialByVideoID videoInfo.VideoID, .transcribe videoInfo.AudioPath,
        respondError StatusInternalServerError "Failed to transcribe audio"], w3) := by
  simp only [transcribeDeferred, hget, htr]

theorem deferred_of_parse_failed {σ : Type} (h : Handler σ) (req : TranscribeRequest)
    (videoInfo : tiktok.VideoInfo) (w1 w2 w3 w4 : σ) (err : Option GoError) (e : GoError)
    (tr : transcription.TranscriptionResult)
    (hget : h.db.GetTutorialByVideoID videoInfo.VideoID w1 = ((none, err), w2))
    (htr : h.transcription.Transcribe videoInfo.AudioPath w2 = (.ok tr, w3))
    (hparse : h.parser.Parse tr.Text videoInfo.CreatorName w3 = (.error e, w4)) :
    transcribeDeferred h req videoInfo w1 =
      ([.getTutorialByVideoID videoInfo.VideoID, .transcribe videoInfo.AudioPath,
        .parse tr.Text videoInfo.CreatorName,
        respondError StatusInternalServerError "Failed to parse transcription"], w4) := by
  simp only [transcribeDeferred, hget, htr, hparse]

theorem deferred_of_not_relevant {σ : Type} (h : Handler σ) (req : TranscribeRequest)
    (videoInfo : tiktok.VideoInfo) (w1 w2 w3 w4 : σ) (err : Option GoError)
    (tr : transcription.TranscriptionResult) (recipe : ParsedRecipe)
    (hget : h.db.GetTutorialByVideoID videoInfo.VideoID w1 = ((none, err), w2))
    (htr : h.transcription.Transcribe videoInfo.AudioPath w2 = (.ok tr, w3))
    (hparse : h.parser.Parse tr.Text videoInfo.CreatorName w3 = (.ok recipe, w4))
    (hrel : recipe.IsSoundDesign = false) :
    transcribeDeferred h req videoInfo w1 =
      ([.getTutorialByVideoID videoInfo.VideoID, .transcribe videoInfo.AudioPath,
        .parse tr.Text videoInfo.CreatorName,
        respondError StatusBadRequest
          "This video doesn't appear to be a sound design tutorial"], w4) := by
  simp only [transcribeDeferred, hget, htr, hparse, hrel, Bool.not_false, if_true]

theorem deferred_of_creator_failed {σ : Type} (h : Handler σ) (req : TranscribeRequest)
    (videoInfo : tiktok.VideoInfo) (w1 w2 w3 w4 w5 : σ) (err : Option GoError) (e : GoError)
    (tr : transcription.TranscriptionResult) (recipe : ParsedRecipe)
    (hget : h.db.GetTutorialByVideoID videoInfo.VideoID w1 = ((none, err), w2))
    (htr : h.transcription.Transcribe videoInfo.AudioPath w2 = (.ok tr, w3))
    (hparse : h.parser.Parse tr.Text videoInfo.CreatorName w3 = (.ok recipe, w4))
    (hrel : recipe.IsSoundDesign = true)
    (hcre : h.db.GetOrCreateCreator videoInfo.CreatorHandle videoInfo.CreatorName w4 =
      (.error e, w5)) :
    transcribeDeferred h req videoInfo w1 =
      ([.getTutorialByVideoID videoInfo.VideoID, .transcribe videoInfo.AudioPath,
        .parse tr.Text videoInfo.CreatorName,
        .getOrCreateCreator videoInfo.CreatorHandle videoInfo.CreatorName,
        respondError StatusInternalServerError "Failed to save creator"], w5) := by
  simp only [transcribeDeferred, hget, htr, hparse, hrel, hcre, Bool.not_true,
    Bool.false_eq_true, if_false]

theorem deferred_of_tutorial_failed {σ : Type} (h : Handler σ) (req : TranscribeRequest)
    (videoInfo : tiktok.VideoInfo) (w1 w2 w3 w4 w5 w6 : σ) (err : Option GoError) (e : GoError)
    (tr : transcription.TranscriptionResult) (recipe : ParsedRecipe) (creator : Creator)
    (hget : h.db.GetTutorialByVideoID videoInfo.VideoID w1 = ((none, err), w2))
    (htr : h.transcription.Transcribe videoInfo.AudioPath w2 = (.ok tr, w3))
    (hparse : h.parser.Parse tr.Text videoInfo.CreatorName w3 = (.ok recipe, w4))
    (hrel : recipe.IsSoundDesign = true)
    (hcre : h.db.GetOrCreateCreator videoInfo.CreatorHandle videoInfo.CreatorName w4 =
      (.ok creator, w5))
    (hsave : h.db.CreateTutorial (newTutorial req videoInfo tr recipe creator) w5 =
      (.error e, w6)) :
    transcribeDeferred h req videoInfo w1 =
      ([.getTutorialByVideoID videoInfo.VideoID, .transcribe videoInfo.AudioPath,
        .parse tr.Text videoInfo.CreatorName,
        .getOrCreateCreator videoInfo.CreatorHandle videoInfo.CreatorName,
        .createTutorial (newTutorial req videoInfo tr recipe creator),
        respondError StatusInternalServerError "Failed to save tutorial"], w6) := by
  simp only [transcribeDeferred, hget, htr, hparse, hrel, hcre, hsave, Bool.not_true,
    Bool.false_eq_true, if_false]

theorem deferred_of_saved {σ : Type} (h : Handler σ) (req : TranscribeRequest)
    (videoInfo : tiktok.VideoInfo) (w1 w2 w3 w4 w5 w6 : σ) (err : Option GoError)
    (tr : transcription.TranscriptionResult) (recipe : ParsedRecipe) (creator : Creator)
    (saved : Tutorial)
    (hget : h.db.GetTutorialByVideoID videoInfo.VideoID w1 = ((none, err), w2))
    (htr : h.transcription.Transcribe videoInfo.AudioPath w2 = (.ok tr, w3))
    (hparse : h.parser.Parse tr.Text videoInfo.CreatorName w3 = (.ok recipe, w4))
    (hrel : recipe.IsSoundDesign = true)
    (hcre : h.db.GetOrCreateCreator videoInfo.CreatorHandle videoInfo.CreatorName w4 =
      (.ok creator, w5))
    (hsave : h.db.CreateTutorial (newTutorial req videoInfo tr recipe creator) w5 =
      (.ok saved, w6)) :
    transcribeDeferred h req videoInfo w1 =
      ([.getTutorialByVideoID videoInfo.VideoID, .transcribe videoInfo.AudioPath,
        .parse tr.Text videoInfo.CreatorName,
        .getOrCreateCreator videoInfo.CreatorHandle videoInfo.CreatorName,
        .createTutorial (newTutorial req videoInfo tr recipe creator),
        .createInstructions saved.ID recipe.Instructions,
        .getTutorialWithInstructions saved.ID,
        respondJSON StatusCreated
          { Success := true, Message := "Tutorial transcribed and saved successfully",
            Tutorial := some (setCreator
              (completeTutorial saved (h.db.GetTutorialWithInstructions saved.ID
                (h.db.CreateInstructions saved.ID recipe.Instructions w6).2).1) creator) }],
        (h.db.GetTutorialWithInstructions saved.ID
          (h.db.CreateInstructions saved.ID recipe.Instructions w6).2).2) := by
  simp only [transcribeDeferred, hget, htr, hparse, hrel, hcre, hsave, Bool.not_true,
    Bool.false_eq_true, if_false]

end handlers

namespace handlers
open models

theorem deferred_no_cleanup {σ : Type} (h : Handler σ) (req : TranscribeRequest)
    (videoInfo : tiktok.VideoInfo) (w1 : σ) :
    ∀ e ∈ (transcribeDeferred h req videoInfo w1).1, e.isCleanup = false := by
  rcases hget : h.db.GetTutorialByVideoID videoInfo.VideoID w1 with ⟨⟨existing, err⟩, w2⟩
  cases existing with
  | some t =>
    rw [deferred_of_hit h req videoInfo w1 w2 t err hget]
    simp [Event.isCleanup, respondJSON]
  | none =>
    rcases htr : h.transcription.Transcribe videoInfo.AudioPath w2 with ⟨r, w3⟩
    cases r with
    | error e =>
      rw [deferred_of_transcribe_failed h req videoInfo w1 w2 w3 err e hget htr]
      simp [Event.isCleanup, respondJSON, respondError]
    | ok tr =>
      rcases hparse : h.parser.Parse tr.Text videoInfo.CreatorName w3 with ⟨r, w4⟩
      cases r with
      | error e =>
        rw [deferred_of_parse_failed h req videoInfo w1 w2 w3 w4 err e tr hget htr hparse]
        simp [Event.isCleanup, respondJSON, respondError]
      | ok recipe =>
        cases hrel : recipe.IsSoundDesign with
        | false =>
          rw [deferred_of_not_relevant h req videoInfo w1 w2 w3 w4 err tr recipe hget htr hparse
            hrel]
          simp [Event.isCleanup, respondJSON, respondError]
        | true =>
          rcases hcre : h.db.GetOrCreateCreator videoInfo.CreatorHandle videoInfo.CreatorName w4
            with ⟨r, w5⟩
          cases r with
          | error e =>
            rw [deferred_of_creator_failed h req videoInfo w1 w2 w3 w4 w5 err e tr recipe hget
              htr hparse hrel hcre]
            simp [Event.isCleanup, respondJSON, respondError]
          | ok creator =>
            rcases hsave : h.db.CreateTutorial (newTutorial req videoInfo tr recipe creator) w5
              with ⟨r, w6⟩
            cases r with
            | error e =>
              rw [deferred_of_tutorial_failed h req videoInfo w1 w2 w3 w4 w5 w6 err e tr recipe
                creator hget htr hparse hrel hcre hsave]
              simp [Event.isCleanup, respondJSON, respondError]
            | ok saved =>
              rw [deferred_of_saved h req videoInfo w1 w2 w3 w4 w5 w6 err tr recipe creator
                saved hget htr hparse hrel hcre hsave]
              simp [Event.isCleanup, respondJSON]

/-- C1: when the URL is valid, the audio is extracted and `GetTutorialByVideoID` returns
an existing tutorial `t`, the handler writes the single response 200 with `success = true`
and `tutorial = t`, calls neither `transcription.Transcribe` nor `parser.Parse` nor any of
the four persistence methods, and leaves the world as `Cleanup` leaves it after the lookup. -/
theorem C1_idempotency_short_circuit {σ : Type} (h : Handler σ) (body : String) (w w1 w2 : σ)
    (req : TranscribeRequest) (videoInfo : tiktok.VideoInfo) (t : Tutorial)
    (err : Option GoError)
    (hdec : h.decodeBody body = .ok req) (hval : tiktok.ValidateURL req.URL = true)
    (hext : h.tiktok.ExtractAudio req.URL w = (.ok videoInfo, w1))
    (hget : h.db.GetTutorialByVideoID videoInfo.VideoID w1 = ((some t, err), w2)) :
    responses (Transcribe h body w).1 =
        [(200, { Success := true, Message := "Tutorial already exists", Tutorial := some t })] ∧
      (∀ e ∈ (Transcribe h body w).1, e.isProcessing = false ∧ e.isPersistence = false) ∧
      (Transcribe h body w).2 = h.tiktok.Cleanup videoInfo.VideoID w2 := by
  rw [transcribe_of_extracted h body w w1 req videoInfo hdec hval hext,
    deferred_of_hit h req videoInfo w1 w2 t err hget]
  simp [responses, respondJSON, StatusOK, Event.isProcessing, Event.isPersistence]

/-- Witness of C1: the scripted run in which the lookup finds the sample tutorial. -/
theorem C1_idempotency_short_circuit_witness :
    responses (Transcribe hitScript.handler "" 0).1 =
      [(200, { Success := true, Message := "Tutorial already exists",
               Tutorial := some sampleTutorial })] :=
  (C1_idempotency_short_circuit hitScript.handler "" 0 1 2 sampleRequest sampleVideo
    sampleTutorial none rfl (by decide) rfl rfl).1

/-- C2: when every stage up to parsing succeeds, the lookup finds no tutorial and the
parsed recipe has `IsSoundDesign = false`, the handler writes the single response 400 with
`success = false` and calls none of `GetOrCreateCreator`, `CreateTutorial`,
`CreateInstructions`, `GetTutorialWithInstructions`. -/
theorem C2_relevance_gate {σ : Type} (h : Handler σ) (body : String) (w w1 w2 w3 w4 : σ)
    (req : TranscribeRequest) (videoInfo : tiktok.VideoInfo) (err : Option GoError)
    (tr : transcription.TranscriptionResult) (recipe : ParsedRecipe)
    (hdec : h.decodeBody body = .ok req) (hval : tiktok.ValidateURL req.URL = true)
    (hext : h.tiktok.ExtractAudio req.URL w = (.ok videoInfo, w1))
    (hget : h.db.GetTutorialByVideoID videoInfo.VideoID w1 = ((none, err), w2))
    (htr : h.transcription.Transcribe videoInfo.AudioPath w2 = (.ok tr, w3))
    (hparse : h.parser.Parse tr.Text videoInfo.CreatorName w3 = (.ok recipe, w4))
    (hrel : recipe.IsSoundDesign = false) :
    responses (Transcribe h body w).1 =
        [(400, { Success := false,
                 Message := "This video doesn't appear to be a sound design tutorial",
                 Tutorial := none })] ∧
      (∀ e ∈ (Transcribe h body w).1, e.isPersistence = false) ∧
      (Transcribe h body w).2 = h.tiktok.Cleanup videoInfo.VideoID w4 := by
  rw [transcribe_of_extracted h body w w1 req videoInfo hdec hval hext,
    deferred_of_not_relevant h req videoInfo w1 w2 w3 w4 err tr recipe hget htr hparse hrel]
  simp [responses, respondJSON, respondError, StatusBadRequest, Event.isPersistence]

/-- Witness of C2: the scripted run whose recipe is flagged as not sound design. -/
theorem C2_relevance_gate_witness :
    responses (Transcribe offTopicScript.handler "" 0).1 =
      [(400, { Success := false,
               Message := "This video doesn't appear to be a sound design tutorial",
               Tutorial := none })] :=
  (C2_relevance_gate offTopicScript.handler "" 0 1 2 3 4 sampleRequest sampleVideo none
    { Text := "start with a saw wave" } { sampleRecipe with IsSoundDesign := false }
    rfl (by decide) rfl rfl rfl rfl rfl).1

end handlers

namespace handlers
open models

/-- C3, counterexample: in the scripted run where `CreateTutorial` returns the sample
tutorial, `CreateInstructions` fails and the reload fails, the response is a 201 success
whose tutorial is not the saved tutorial itself: its `Creator` field has been filled in. -/
theorem C3_counterexample :
    stepFailScript.create = .ok sampleTutorial ∧
      stepFailScript.instructions ≠ none ∧
      stepFailScript.reload = .error "tutorial not found" ∧
      responses (Transcribe stepFailScript.handler "" 0).1 =
        [(201, { Success := true, Message := "Tutorial transcribed and saved successfully",
                 Tutorial := some { sampleTutorial with Creator := some sampleCreator } })] ∧
      (some { sampleTutorial with Creator := some sampleCreator } : Option Tutorial) ≠
        some sampleTutorial :=
  ⟨rfl, by decide, rfl, by decide, by decide⟩

/-- C3, amended: when every stage up to `CreateTutorial` succeeds with saved tutorial `s`
and `CreateInstructions` returns an error, the handler still writes the single response
201 with `success = true`; its tutorial is the one that `GetTutorialWithInstructions s.ID`
returns when the reload succeeds and `s` otherwise, in both cases with the `Creator`
field set to the creator that `GetOrCreateCreator` returned. -/
theorem C3_instruction_failure_non_fatal {σ : Type} (h : Handler σ) (body : String)
    (w w1 w2 w3 w4 w5 w6 w7 : σ) (req : TranscribeRequest) (videoInfo : tiktok.VideoInfo)
    (err : Option GoError) (tr : transcription.TranscriptionResult) (recipe : ParsedRecipe)
    (creator : Creator) (s : Tutorial) (e : GoError)
    (hdec : h.decodeBody body = .ok req) (hval : tiktok.ValidateURL req.URL = true)
    (hext : h.tiktok.ExtractAudio req.URL w = (.ok videoInfo, w1))
    (hget : h.db.GetTutorialByVideoID videoInfo.VideoID w1 = ((none, err), w2))
    (htr : h.transcription.Transcribe videoInfo.AudioPath w2 = (.ok tr, w3))
    (hparse : h.parser.Parse tr.Text videoInfo.CreatorName w3 = (.ok recipe, w4))
    (hrel : recipe.IsSoundDesign = true)
    (hcre : h.db.GetOrCreateCreator videoInfo.CreatorHandle videoInfo.CreatorName w4 =
      (.ok creator, w5))
    (hsave : h.db.CreateTutorial (newTutorial req videoInfo tr recipe creator) w5 = (.ok s, w6))
    (hins : h.db.CreateInstructions s.ID recipe.Instructions w6 = (some e, w7)) :
    (∀ t w8, h.db.GetTutorialWithInstructions s.ID w7 = (.ok t, w8) →
        responses (Transcribe h body w).1 =
          [(201, { Success := true, Message := "Tutorial transcribed and saved successfully",
                   Tutorial := some { t with Creator := some creator } })]) ∧
      (∀ e2 w8, h.db.GetTutorialWithInstructions s.ID w7 = (.error e2, w8) →
        responses (Transcribe h body w).1 =
          [(201, { Success := true, Message := "Tutorial transcribed and saved successfully",
                   Tutorial := some { s with Creator := some creator } })]) := by
  rw [transcribe_of_extracted h body w w1 req videoInfo hdec hval hext,
    deferred_of_saved h req videoInfo w1 w2 w3 w4 w5 w6 err tr recipe creator s hget htr hparse
      hrel hcre hsave, hins]
  constructor
  · intro t w8 hre
    simp [hre, responses, respondJSON, StatusCreated, completeTutorial, setCreator]
  · intro e2 w8 hre
    simp [hre, responses, respondJSON, StatusCreated, completeTutorial, setCreator]

/-- Witness of C3 (amended): the scripted run whose step insert and reload both fail. -/
theorem C3_instruction_failure_non_fatal_witness :
    responses (Transcribe stepFailScript.handler "" 0).1 =
      [(201, { Success := true, Message := "Tutorial transcribed and saved successfully",
               Tutorial := some { sampleTutorial with Creator := some sampleCreator } })] :=
  (C3_instruction_failure_non_fatal stepFailScript.handler "" 0 1 2 3 4 5 6 7 sampleRequest
    sampleVideo none { Text := "start with a saw wave" } sampleRecipe sampleCreator
    sampleTutorial "failed to create instruction 1: supabase error (status 500): "
    rfl (by decide) rfl rfl rfl rfl rfl rfl rfl rfl).2 "tutorial not found" 8 rfl

/-- C6: when the body does not decode, or decodes to a URL that `ValidateURL` rejects,
the handler writes the single response 400 with `success = false`, makes no call on any
service and leaves the world untouched. -/
theorem C6_client_errors_before_any_call {σ : Type} (h : Handler σ) (body : String) (w : σ)
    (hbad : (∃ e, h.decodeBody body = .error e) ∨
      (∃ req, h.decodeBody body = .ok req ∧ tiktok.ValidateURL req.URL = false)) :
    (∃ message, (Transcribe h body w).1 =
        [.respond 400 { Success := false, Message := message, Tutorial := none }]) ∧
      (∀ e ∈ (Transcribe h body w).1, e.isCall = false) ∧
      (Transcribe h body w).2 = w := by
  rcases hbad with ⟨e, hdec⟩ | ⟨req, hdec, hval⟩
  · simp [Transcribe, hdec, respondError, respondJSON, StatusBadRequest, Event.isCall]
  · simp [Transcribe, hdec, hval, respondError, respondJSON, StatusBadRequest, Event.isCall]

/-- Witness of C6: the scripted run whose body does not decode. -/
theorem C6_client_errors_before_any_call_witness :
    (Transcribe badBodyScript.handler "" 0).2 = 0 :=
  (C6_client_errors_before_any_call badBodyScript.handler "" 0
    (Or.inl ⟨"unexpected end of JSON input", rfl⟩)).2.2

end handlers

namespace handlers
open models

/-- C7: for a request that passes validation, when the first stage to fail is audio
extraction, transcription, parsing, `GetOrCreateCreator` or `CreateTutorial`, the run is
exactly the calls up to the failing stage followed by one response 500 with
`success = false` and a message fixed by the stage (and then the deferred cleanup, once
the extraction has succeeded): no later stage is called, and the error value does not
occur in the response. -/
theorem C7_upstream_failures_fixed_message {σ : Type} (h : Handler σ) (body : String) (w : σ)
    (req : TranscribeRequest)
    (hdec : h.decodeBody body = .ok req) (hval : tiktok.ValidateURL req.URL = true) :
    (∀ e w1, h.tiktok.ExtractAudio req.URL w = (.error e, w1) →
        (Transcribe h body w).1 =
          [.extractAudio req.URL,
            .respond 500 { Success := false, Message := "Failed to extract audio from TikTok",
                           Tutorial := none }]) ∧
      (∀ videoInfo w1 err w2, h.tiktok.ExtractAudio req.URL w = (.ok videoInfo, w1) →
        h.db.GetTutorialByVideoID videoInfo.VideoID w1 = ((none, err), w2) →
        (∀ e w3, h.transcription.Transcribe videoInfo.AudioPath w2 = (.error e, w3) →
          (Transcribe h body w).1 =
            [.extractAudio req.URL, .getTutorialByVideoID videoInfo.VideoID,
              .transcribe videoInfo.AudioPath,
              .respond 500 { Success := false, Message := "Failed to transcribe audio",
                             Tutorial := none },
              .cleanup videoInfo.VideoID]) ∧
        (∀ tr w3, h.transcription.Transcribe videoInfo.AudioPath w2 = (.ok tr, w3) →
          (∀ e w4, h.parser.Parse tr.Text videoInfo.CreatorName w3 = (.error e, w4) →
            (Transcribe h body w).1 =
              [.extractAudio req.URL, .getTutorialByVideoID videoInfo.VideoID,
                .transcribe videoInfo.AudioPath, .parse tr.Text videoInfo.CreatorName,
                .respond 500 { Success := false, Message := "Failed to parse transcription",
                               Tutorial := none },
                .cleanup videoInfo.VideoID]) ∧
          (∀ recipe w4, h.parser.Parse tr.Text videoInfo.CreatorName w3 = (.ok recipe, w4) →
            recipe.IsSoundDesign = true →
            (∀ e w5,
              h.db.GetOrCreateCreator videoInfo.CreatorHandle videoInfo.CreatorName w4 =
                (.error e, w5) →
              (Transcribe h body w).1 =
                [.extractAudio req.URL, .getTutorialByVideoID videoInfo.VideoID,
                  .transcribe videoInfo.AudioPath, .parse tr.Text videoInfo.CreatorName,
                  .getOrCreateCreator videoInfo.CreatorHandle videoInfo.CreatorName,
                  .respond 500 { Success := false, Message := "Failed to save creator",
                                 Tutorial := none },
                  .cleanup videoInfo.VideoID]) ∧
            (∀ creator w5 e w6,
              h.db.GetOrCreateCreator videoInfo.CreatorHandle videoInfo.CreatorName w4 =
                (.ok creator, w5) →
              h.db.CreateTutorial (newTutorial req videoInfo tr recipe creator) w5 =
                (.error e, w6) →
              (Transcribe h body w).1 =
                [.extractAudio req.URL, .getTutorialByVideoID videoInfo.VideoID,
                  .transcribe videoInfo.AudioPath, .parse tr.Text videoInfo.CreatorName,
                  .getOrCreateCreator videoInfo.CreatorHandle videoInfo.CreatorName,
                  .createTutorial (newTutorial req videoInfo tr recipe creator),
                  .respond 500 { Success := false, Message := "Failed to save tutorial",
                                 Tutorial := none },
                  .cleanup videoInfo.VideoID])))) := by
  refine ⟨?_, ?_⟩
  · intro e w1 hext
    rw [transcribe_of_extract_failed h body w w1 req e hdec hval hext]
    rfl
  · intro videoInfo w1 err w2 hext hget
    rw [transcribe_of_extracted h body w w1 req videoInfo hdec hval hext]
    refine ⟨?_, ?_⟩
    · intro e w3 htr
      rw [deferred_of_transcribe_failed h req videoInfo w1 w2 w3 err e hget htr]
      rfl
    · intro tr w3 htr
      refine ⟨?_, ?_⟩
      · intro e w4 hparse
        rw [deferred_of_parse_failed h req videoInfo w1 w2 w3 w4 err e tr hget htr hparse]
        rfl
      · intro recipe w4 hparse hrel
        refine ⟨?_, ?_⟩
        · intro e w5 hcre
          rw [deferred_of_creator_failed h req videoInfo w1 w2 w3 w4 w5 err e tr recipe hget htr
            hparse hrel hcre]
          rfl
        · intro creator w5 e w6 hcre hsave
          rw [deferred_of_tutorial_failed h req videoInfo w1 w2 w3 w4 w5 w6 err e tr recipe
            creator hget htr hparse hrel hcre hsave]
          rfl

/-- Witness of C7: the scripted run in which `yt-dlp` fails. -/
theorem C7_upstream_failures_fixed_message_witness :
    (Transcribe extractFailScript.handler "" 0).1 =
      [.extractAudio "https://www.tiktok.com/@synthwiz/video/7301",
        .respond 500 { Success := false, Message := "Failed to extract audio from TikTok",
                       Tutorial := none }] :=
  (C7_upstream_failures_fixed_message extractFailScript.handler "" 0 sampleRequest rfl
    (by decide)).1 "failed to get video info: exit status 1" 1 rfl

/-- C8, counterexample: in the scripted run whose URL is valid and whose `ExtractAudio`
fails, the handler never calls `Cleanup`. -/
theorem C8_counterexample :
    tiktok.ValidateURL sampleRequest.URL = true ∧
      (extractFailScript.handler.tiktok.ExtractAudio sampleRequest.URL 0).1 =
        .error "failed to get video info: exit status 1" ∧
      ∀ e ∈ (Transcribe extractFailScript.handler "" 0).1, e.isCleanup = false :=
  ⟨by decide, rfl, by decide⟩

/-- C8, amended: when the URL is valid and `ExtractAudio` returns an error, the handler
calls `ExtractAudio`, writes the response 500 with `success = false` and returns; it does
not call `Cleanup`, which is registered only once the extraction has succeeded. -/
theorem C8_no_cleanup_when_extraction_fails {σ : Type} (h : Handler σ) (body : String)
    (w w1 : σ) (req : TranscribeRequest) (err : GoError)
    (hdec : h.decodeBody body = .ok req) (hval : tiktok.ValidateURL req.URL = true)
    (hext : h.tiktok.ExtractAudio req.URL w = (.error err, w1)) :
    (Transcribe h body w).1 =
        [.extractAudio req.URL,
          .respond 500 { Success := false, Message := "Failed to extract audio from TikTok",
                         Tutorial := none }] ∧
      (∀ e ∈ (Transcribe h body w).1, e.isCleanup = false) ∧
      (Transcribe h body w).2 = w1 := by
  rw [transcribe_of_extract_failed h body w w1 req err hdec hval hext]
  simp [respondError, respondJSON, StatusInternalServerError, Event.isCleanup]

/-- Witness of C8 (amended): the scripted run in which `yt-dlp` fails. -/
theorem C8_no_cleanup_when_extraction_fails_witness :
    (Transcribe extractFailScript.handler "" 0).2 = 1 :=
  (C8_no_cleanup_when_extraction_fails extractFailScript.handler "" 0 1 sampleRequest
    "failed to get video info: exit status 1" rfl (by decide) rfl).2.2

/-- C9: when `ExtractAudio` succeeds with video ID `v`, the run ends with the call
`Cleanup v`, which is the only call of `Cleanup` in the run, whatever the later stages
return; the world the handler leaves is the one `Cleanup v` returns. -/
theorem C9_cleanup_once_and_last {σ : Type} (h : Handler σ) (body : String) (w w1 : σ)
    (req : TranscribeRequest) (videoInfo : tiktok.VideoInfo)
    (hdec : h.decodeBody body = .ok req) (hval : tiktok.ValidateURL req.URL = true)
    (hext : h.tiktok.ExtractAudio req.URL w = (.ok videoInfo, w1)) :
    ∃ before w2, (Transcribe h body w).1 = before ++ [.cleanup videoInfo.VideoID] ∧
      (∀ e ∈ before, e.isCleanup = false) ∧
      (Transcribe h body w).2 = h.tiktok.Cleanup videoInfo.VideoID w2 := by
  rw [transcribe_of_extracted h body w w1 req videoInfo hdec hval hext]
  refine ⟨.extractAudio req.URL :: (transcribeDeferred h req videoInfo w1).1,
    (transcribeDeferred h req videoInfo w1).2, rfl, ?_, rfl⟩
  intro e he
  rcases List.mem_cons.mp he with he | he
  · rw [he]
    rfl
  · exact deferred_no_cleanup h req videoInfo w1 e he

/-- Witness of C9: the scripted run in which every stage succeeds. -/
theorem C9_cleanup_once_and_last_witness :
    ∃ before w2, (Transcribe happyScript.handler "" 0).1 = before ++ [.cleanup "7301"] ∧
      (∀ e ∈ before, e.isCleanup = false) ∧
      (Transcribe happyScript.handler "" 0).2 = happyScript.handler.tiktok.Cleanup "7301" w2 :=
  C9_cleanup_once_and_last happyScript.handler "" 0 1 sampleRequest sampleVideo rfl
    (by decide) rfl

end handlers

/-! ## Theorems: the persistence gateway -/

namespace database
open models

theorem request_sent {σ α : Type} (env : Backend σ) (s : Service) (method endpoint : String)
    (body : Option Payload) (result : Option (String → Except GoError α)) (w : Wire σ) :
    (request env s method endpoint body result w).2.sent =
      if env.newRequest method (s.baseURL ++ endpoint) = none then
        w.sent ++ [buildRequest s method endpoint body]
      else w.sent := by
  unfold request
  cases hnew : env.newRequest method (s.baseURL ++ endpoint) with
  | some err => simp
  | none =>
    simp only [if_true]
    cases hout : (env.roundTrip (buildRequest s method endpoint body) w.world).1 with
    | sendFailed err => rfl
    | readFailed err => rfl
    | done StatusCode respBody =>
      by_cases hst : StatusCode ≥ 400
      · simp only [hst, if_true]
      · simp only [hst, if_false]
        cases result with
        | none => rfl
        | some unmarshal =>
          by_cases hlen : respBody.utf8ByteSize > 0
          · simp only [hlen, if_true]
            cases unmarshal respBody <;> rfl
          · simp only [hlen, if_false]

theorem createTutorial_sent {σ : Type} (env : Backend σ) (s : Service) (tutorial : Tutorial)
    (w : Wire σ) :
    (CreateTutorial env s tutorial w).2.sent =
      if env.newRequest "POST" (s.baseURL ++ "/tutorials") = none then
        w.sent ++ [buildRequest s "POST" "/tutorials"
          (some (newTutorial tutorial (env.now w.world).1 (env.now (env.now w.world).2).1))]
      else w.sent := by
  have hreq := request_sent env s "POST" "/tutorials"
    (some (newTutorial tutorial (env.now w.world).1 (env.now (env.now w.world).2).1))
    (some env.unmarshalTutorials) { w with world := (env.now (env.now w.world).2).2 }
  rcases hout : request env s "POST" "/tutorials"
    (some (newTutorial tutorial (env.now w.world).1 (env.now (env.now w.world).2).1))
    (some env.unmarshalTutorials) { w with world := (env.now (env.now w.world).2).2 }
    with ⟨r, w1⟩
  rw [hout] at hreq
  simp only [CreateTutorial, hout]
  cases r with
  | error err => exact hreq
  | ok created =>
    simp only
    cases created.getD [] <;> exact hreq

/-- C10: the request that `CreateTutorial` hands to the HTTP client, whenever it builds
one, is a `POST` to `/tutorials` whose document has `status = "pending"` whatever the
`Status` field of the input holds, and whose `creator_id`, `tiktok_url`,
`tiktok_video_id`, `title`, `sound_type` and `raw_transcription` are the corresponding
fields of the input; it hands over no other request. -/
theorem C10_createTutorial_forces_pending {σ : Type} (env : Backend σ) (s : Service)
    (tutorial : Tutorial) (w : Wire σ) :
    ∃ payload : Payload,
      payload.lookup "status" = some (.str "pending") ∧
      payload.lookup "creator_id" = some (.str tutorial.CreatorID) ∧
      payload.lookup "tiktok_url" = some (.str tutorial.TiktokURL) ∧
      payload.lookup "tiktok_video_id" = some (.str tutorial.TiktokVideoID) ∧
      payload.lookup "title" = some (.str tutorial.Title) ∧
      payload.lookup "sound_type" = some (.str tutorial.SoundType) ∧
      payload.lookup "raw_transcription" = some (.str tutorial.RawTranscription) ∧
      (CreateTutorial env s tutorial w).2.sent =
        if env.newRequest "POST" (s.baseURL ++ "/tutorials") = none then
          w.sent ++ [{ method := "POST", url := s.baseURL ++ "/tutorials",
                       headers := [("apikey", s.apiKey), ("Authorization", "Bearer " ++ s.apiKey),
                         ("Content-Type", "application/json"),
                         ("Prefer", "return=representation")],
                       body := some payload }]
        else w.sent := by
  refine ⟨newTutorial tutorial (env.now w.world).1 (env.now (env.now w.world).2).1,
    ?_, ?_, ?_, ?_, ?_, ?_, ?_, createTutorial_sent env s tutorial w⟩ <;>
  simp [newTutorial, List.lookup]

end database

/-! ## Theorems: `CreateInstructions` -/

namespace database
open models

theorem request_calls {σ α : Type} (env : Backend σ) (s : Service) (method endpoint : String)
    (body : Option Payload) (result : Option (String → Except GoError α)) (w : Wire σ) :
    (request env s method endpoint body result w).2.calls =
      w.calls ++ [{ method := method, endpoint := endpoint, body := body }] := by
  unfold request
  cases hnew : env.newRequest method (s.baseURL ++ endpoint) with
  | some err => rfl
  | none =>
    simp only
    cases hout : (env.roundTrip (buildRequest s method endpoint body) w.world).1 with
    | sendFailed err => rfl
    | readFailed err => rfl
    | done StatusCode respBody =>
      by_cases hst : StatusCode ≥ 400
      · simp only [hst, if_true]
      · simp only [hst, if_false]
        cases result with
        | none => rfl
        | some unmarshal =>
          by_cases hlen : respBody.utf8ByteSize > 0
          · simp only [hlen, if_true]
            cases unmarshal respBody <;> rfl
          · simp only [hlen, if_false]

theorem afterInserts_cons {σ : Type} (env : Backend σ) (s : Service) (tutorialID : String)
    (inst : ParsedInstruction) (rest : List ParsedInstruction) (w : Wire σ) :
    afterInserts env s tutorialID (inst :: rest) w =
      afterInserts env s tutorialID rest (insertStep env s tutorialID inst w).2 := rfl

theorem afterInserts_calls {σ : Type} (env : Backend σ) (s : Service) (tutorialID : String)
    (issued : List ParsedInstruction) (w : Wire σ) :
    (afterInserts env s tutorialID issued w).calls =
      w.calls ++ issued.map (insertCall tutorialID) := by
  induction issued generalizing w with
  | nil => simp [afterInserts]
  | cons inst rest ih =>
    rw [afterInserts_cons, ih, insertStep, request_calls]
    simp [insertCall]

theorem afterInserts_sent {σ : Type} (env : Backend σ) (s : Service) (tutorialID : String)
    (issued : List ParsedInstruction) (w : Wire σ) :
    (afterInserts env s tutorialID issued w).sent =
      if env.newRequest "POST" (s.baseURL ++ "/instructions") = none then
        w.sent ++ issued.map (insertRequest s tutorialID)
      else w.sent := by
  induction issued generalizing w with
  | nil => simp [afterInserts]
  | cons inst rest ih =>
    rw [afterInserts_cons, ih, insertStep, request_sent]
    by_cases hnew : env.newRequest "POST" (s.baseURL ++ "/instructions") = none
    · simp [hnew, insertRequest]
    · simp [hnew]

theorem allInsertsSucceed_cons {σ : Type} (env : Backend σ) (s : Service) (tutorialID : String)
    (inst : ParsedInstruction) (rest : List ParsedInstruction) (w : Wire σ)
    (h : AllInsertsSucceed env s tutorialID (inst :: rest) w) :
    (∃ r, (insertStep env s tutorialID inst w).1 = .ok r) ∧
      AllInsertsSucceed env s tutorialID rest (insertStep env s tutorialID inst w).2 := by
  constructor
  · exact h [] inst rest rfl
  · intro pre i post hsplit
    have := h (inst :: pre) i post (by rw [hsplit]; rfl)
    rw [afterInserts_cons] at this
    exact this

theorem createInstructions_of_step_ok {σ : Type} (env : Backend σ) (s : Service)
    (tutorialID : String) (inst : ParsedInstruction) (rest : List ParsedInstruction)
    (w : Wire σ) (r : Option Unit) (hok : (insertStep env s tutorialID inst w).1 = .ok r) :
    CreateInstructions env s tutorialID (inst :: rest) w =
      CreateInstructions env s tutorialID rest (insertStep env s tutorialID inst w).2 := by
  rw [insertStep] at hok
  rcases hreq : request env s "POST" "/instructions" (some (newInst tutorialID inst))
    (none : Option (String → Except GoError Unit)) w with ⟨res, w1⟩
  rw [hreq] at hok
  simp only at hok
  subst hok
  simp only [CreateInstructions, insertStep, hreq]

theorem createInstructions_of_step_failed {σ : Type} (env : Backend σ) (s : Service)
    (tutorialID : String) (inst : ParsedInstruction) (rest : List ParsedInstruction)
    (w : Wire σ) (err : GoError)
    (hfail : (insertStep env s tutorialID inst w).1 = .error err) :
    CreateInstructions env s tutorialID (inst :: rest) w =
      (some ("failed to create instruction " ++ toString inst.StepNumber ++ ": " ++ err),
        (insertStep env s tutorialID inst w).2) := by
  rw [insertStep] at hfail
  rcases hreq : request env s "POST" "/instructions" (some (newInst tutorialID inst))
    (none : Option (String → Except GoError Unit)) w with ⟨res, w1⟩
  rw [hreq] at hfail
  simp only at hfail
  subst hfail
  simp only [CreateInstructions, insertStep, hreq]

theorem createInstructions_all_ok {σ : Type} (env : Backend σ) (s : Service)
    (tutorialID : String) (steps : List ParsedInstruction) (w : Wire σ)
    (h : AllInsertsSucceed env s tutorialID steps w) :
    CreateInstructions env s tutorialID steps w = (none, afterInserts env s tutorialID steps w) := by
  induction steps generalizing w with
  | nil => rfl
  | cons inst rest ih =>
    obtain ⟨⟨r, hok⟩, hrest⟩ := allInsertsSucceed_cons env s tutorialID inst rest w h
    rw [createInstructions_of_step_ok env s tutorialID inst rest w r hok, ih _ hrest,
      afterInserts_cons]

theorem createInstructions_first_failure {σ : Type} (env : Backend σ) (s : Service)
    (tutorialID : String) (pre : List ParsedInstruction) (inst : ParsedInstruction)
    (post : List ParsedInstruction) (err : GoError) (w : Wire σ)
    (h : FirstFailingInsert env s tutorialID pre inst err w) :
    CreateInstructions env s tutorialID (pre ++ inst :: post) w =
      (some ("failed to create instruction " ++ toString inst.StepNumber ++ ": " ++ err),
        afterInserts env s tutorialID (pre ++ [inst]) w) := by
  induction pre generalizing w with
  | nil =>
    rw [List.nil_append, createInstructions_of_step_failed env s tutorialID inst post w err h.2]
    rfl
  | cons p pre ih =>
    obtain ⟨⟨r, hok⟩, hrest⟩ := allInsertsSucceed_cons env s tutorialID p pre w h.1
    have hfail := h.2
    rw [afterInserts_cons] at hfail
    rw [List.cons_append, createInstructions_of_step_ok env s tutorialID p _ w r hok,
      ih _ ⟨hrest, hfail⟩, List.cons_append, afterInserts_cons]

end database

namespace database
open models

theorem allInsertsSucceed_of_cons {σ : Type} (env : Backend σ) (s : Service)
    (tutorialID : String) (inst : ParsedInstruction) (rest : List ParsedInstruction)
    (w : Wire σ) (r : Option Unit) (hok : (insertStep env s tutorialID inst w).1 = .ok r)
    (hrest : AllInsertsSucceed env s tutorialID rest (insertStep env s tutorialID inst w).2) :
    AllInsertsSucceed env s tutorialID (inst :: rest) w := by
  intro pre i post hsplit
  cases pre with
  | nil =>
    simp only [List.nil_append, List.cons.injEq] at hsplit
    rw [← hsplit.1]
    exact ⟨r, hok⟩
  | cons p pre =>
    simp only [List.cons_append, List.cons.injEq] at hsplit
    rw [← hsplit.1, afterInserts_cons]
    exact hrest pre i post hsplit.2

theorem inserts_succeed_or_first_failure {σ : Type} (env : Backend σ) (s : Service)
    (tutorialID : String) (steps : List ParsedInstruction) (w : Wire σ) :
    AllInsertsSucceed env s tutorialID steps w ∨
      ∃ pre inst post err, steps = pre ++ inst :: post ∧
        FirstFailingInsert env s tutorialID pre inst err w := by
  induction steps generalizing w with
  | nil =>
    left
    intro pre inst post hsplit
    simp at hsplit
  | cons inst rest ih =>
    cases hstep : (insertStep env s tutorialID inst w).1 with
    | error err =>
      right
      refine ⟨[], inst, rest, err, rfl, ?_, hstep⟩
      intro pre i post hsplit
      simp at hsplit
    | ok r =>
      rcases ih (insertStep env s tutorialID inst w).2 with hall | ⟨pre, i, post, err, hsplit, hff⟩
      · exact Or.inl (allInsertsSucceed_of_cons env s tutorialID inst rest w r hstep hall)
      · right
        refine ⟨inst :: pre, i, post, err, by rw [hsplit]; rfl, ?_, ?_⟩
        · exact allInsertsSucceed_of_cons env s tutorialID inst pre w r hstep hff.1
        · rw [afterInserts_cons]
          exact hff.2

/-- C11: `CreateInstructions` issues the inserts of the steps one by one, in the order of
the list, each a `POST` to `/instructions` whose document carries the given tutorial ID
and the step number of the step as supplied. When every insert succeeds it has made
exactly one call per step and returns no error. When the insert of a step is the first to
fail it has made exactly the calls of the steps up to and including that one, nothing
for the later steps and nothing else (no delete, no rollback), and it returns an error.
One of the two cases always holds. -/
theorem C11_createInstructions_prefix_then_stop {σ : Type} (env : Backend σ) (s : Service)
    (tutorialID : String) (steps : List ParsedInstruction) (w : Wire σ) :
    (AllInsertsSucceed env s tutorialID steps w →
        (CreateInstructions env s tutorialID steps w).1 = none ∧
        (CreateInstructions env s tutorialID steps w).2.calls =
          w.calls ++ steps.map (insertCall tutorialID) ∧
        (CreateInstructions env s tutorialID steps w).2.sent =
          if env.newRequest "POST" (s.baseURL ++ "/instructions") = none then
            w.sent ++ steps.map (insertRequest s tutorialID)
          else w.sent) ∧
      (∀ pre inst post err, steps = pre ++ inst :: post →
        FirstFailingInsert env s tutorialID pre inst err w →
        (CreateInstructions env s tutorialID steps w).1 =
          some ("failed to create instruction " ++ toString inst.StepNumber ++ ": " ++ err) ∧
        (CreateInstructions env s tutorialID steps w).2.calls =
          w.calls ++ (pre ++ [inst]).map (insertCall tutorialID) ∧
        (CreateInstructions env s tutorialID steps w).2.sent =
          if env.newRequest "POST" (s.baseURL ++ "/instructions") = none then
            w.sent ++ (pre ++ [inst]).map (insertRequest s tutorialID)
          else w.sent) ∧
      (AllInsertsSucceed env s tutorialID steps w ∨
        ∃ pre inst post err, steps = pre ++ inst :: post ∧
          FirstFailingInsert env s tutorialID pre inst err w) ∧
      (∀ inst, (insertCall tutorialID inst).method = "POST" ∧
        (insertCall tutorialID inst).endpoint = "/instructions" ∧
        ∃ payload, (insertCall tutorialID inst).body = some payload ∧
          (insertRequest s tutorialID inst).body = some payload ∧
          payload.lookup "tutorial_id" = some (.str tutorialID) ∧
          payload.lookup "step_number" = some (.int inst.StepNumber)) := by
  refine ⟨?_, ?_, inserts_succeed_or_first_failure env s tutorialID steps w, ?_⟩
  · intro hall
    rw [createInstructions_all_ok env s tutorialID steps w hall]
    exact ⟨rfl, afterInserts_calls env s tutorialID steps w,
      afterInserts_sent env s tutorialID steps w⟩
  · intro pre inst post err hsplit hff
    rw [hsplit, createInstructions_first_failure env s tutorialID pre inst post err w hff]
    exact ⟨rfl, afterInserts_calls env s tutorialID (pre ++ [inst]) w,
      afterInserts_sent env s tutorialID (pre ++ [inst]) w⟩
  · intro inst
    refine ⟨rfl, rfl, newInst tutorialID inst, rfl, rfl, ?_, ?_⟩ <;>
    simp [newInst, List.lookup]

/-- Witness of C11: against the store that accepts one request and rejects the next, the
insert of the second of three steps is the first to fail. -/
theorem C11_createInstructions_prefix_then_stop_witness :
    (CreateInstructions flakyBackend sampleService "t-1" sampleSteps freshWire).1 =
        some "failed to create instruction 2: supabase error (status 500): row rejected" ∧
      (CreateInstructions flakyBackend sampleService "t-1" sampleSteps freshWire).2.calls =
        [insertCall "t-1" stepOne, insertCall "t-1" stepTwo] :=
  have h := (C11_createInstructions_prefix_then_stop flakyBackend sampleService "t-1"
    sampleSteps freshWire).2.1 [stepOne] stepTwo [stepThree]
    "supabase error (status 500): row rejected" rfl
    ⟨allInsertsSucceed_of_cons flakyBackend sampleService "t-1" stepOne [] freshWire none rfl
      (fun pre inst post hsplit => by simp at hsplit), rfl⟩
  ⟨h.1, h.2.1⟩

end database

/-! ## Theorems: the shape of the responses and the failed lookup -/

namespace handlers
open models

theorem wellFormed_error (status : Nat) (message : String)
    (hs : status = 400 ∨ status = 500) (hm : message ≠ "") :
    WellFormedResponse status { Success := false, Message := message, Tutorial := none } := by
  refine ⟨by omega, ?_, by simp, fun _ => hm⟩
  constructor
  · intro h
    exact absurd h (by simp)
  · intro h
    omega

theorem wellFormed_success (status : Nat) (message : String) (t : Tutorial)
    (hs : status = 200 ∨ status = 201) :
    WellFormedResponse status { Success := true, Message := message, Tutorial := some t } := by
  refine ⟨by omega, ?_, by simp, by simp⟩
  constructor
  · intro _
    exact hs
  · intro _
    rfl

theorem responses_append (a b : List Event) : responses (a ++ b) = responses a ++ responses b := by
  induction a with
  | nil => rfl
  | cons e a ih =>
    cases e <;> simp [responses, ih]

theorem deferred_response_wellFormed {σ : Type} (h : Handler σ) (req : TranscribeRequest)
    (videoInfo : tiktok.VideoInfo) (w1 : σ) :
    ∃ status data, responses (transcribeDeferred h req videoInfo w1).1 = [(status, data)] ∧
      WellFormedResponse status data := by
  rcases hget : h.db.GetTutorialByVideoID videoInfo.VideoID w1 with ⟨⟨existing, err⟩, w2⟩
  cases existing with
  | some t =>
    rw [deferred_of_hit h req videoInfo w1 w2 t err hget]
    exact ⟨200, _, rfl, wellFormed_success 200 _ t (Or.inl rfl)⟩
  | none =>
    rcases htr : h.transcription.Transcribe videoInfo.AudioPath w2 with ⟨r, w3⟩
    cases r with
    | error e =>
      rw [deferred_of_transcribe_failed h req videoInfo w1 w2 w3 err e hget htr]
      exact ⟨500, _, rfl, wellFormed_error 500 _ (Or.inr rfl) (by decide)⟩
    | ok tr =>
      rcases hparse : h.parser.Parse tr.Text videoInfo.CreatorName w3 with ⟨r, w4⟩
      cases r with
      | error e =>
        rw [deferred_of_parse_failed h req videoInfo w1 w2 w3 w4 err e tr hget htr hparse]
        exact ⟨500, _, rfl, wellFormed_error 500 _ (Or.inr rfl) (by decide)⟩
      | ok recipe =>
        cases hrel : recipe.IsSoundDesign with
        | false =>
          rw [deferred_of_not_relevant h req videoInfo w1 w2 w3 w4 err tr recipe hget htr hparse
            hrel]
          exact ⟨400, _, rfl, wellFormed_error 400 _ (Or.inl rfl) (by decide)⟩
        | true =>
          rcases hcre : h.db.GetOrCreateCreator videoInfo.CreatorHandle videoInfo.CreatorName w4
            with ⟨r, w5⟩
          cases r with
          | error e =>
            rw [deferred_of_creator_failed h req videoInfo w1 w2 w3 w4 w5 err e tr recipe hget
              htr hparse hrel hcre]
            exact ⟨500, _, rfl, wellFormed_error 500 _ (Or.inr rfl) (by decide)⟩
          | ok creator =>
            rcases hsave : h.db.CreateTutorial (newTutorial req videoInfo tr recipe creator) w5
              with ⟨r, w6⟩
            cases r with
            | error e =>
              rw [deferred_of_tutorial_failed h req videoInfo w1 w2 w3 w4 w5 w6 err e tr recipe
                creator hget htr hparse hrel hcre hsave]
              exact ⟨500, _, rfl, wellFormed_error 500 _ (Or.inr rfl) (by decide)⟩
            | ok saved =>
              rw [deferred_of_saved h req videoInfo w1 w2 w3 w4 w5 w6 err tr recipe creator
                saved hget htr hparse hrel hcre hsave]
              exact ⟨201, _, rfl, wellFormed_success 201 _ _ (Or.inr rfl)⟩

theorem transcribe_response_wellFormed {σ : Type} (h : Handler σ) (body : String) (w : σ) :
    ∃ status data, responses (Transcribe h body w).1 = [(status, data)] ∧
      WellFormedResponse status data := by
  cases hdec : h.decodeBody body with
  | error e =>
    refine ⟨400, { Success := false, Message := "Invalid request body", Tutorial := none }, ?_,
      wellFormed_error 400 _ (Or.inl rfl) (by decide)⟩
    simp only [Transcribe, hdec]
    rfl
  | ok req =>
    cases hval : tiktok.ValidateURL req.URL with
    | false =>
      refine ⟨400, { Success := false, Message := "Invalid TikTok URL", Tutorial := none }, ?_,
        wellFormed_error 400 _ (Or.inl rfl) (by decide)⟩
      simp only [Transcribe, hdec, hval, Bool.not_false, if_true]
      rfl
    | true =>
      rcases hext : h.tiktok.ExtractAudio req.URL w with ⟨r, w1⟩
      cases r with
      | error e =>
        rw [transcribe_of_extract_failed h body w w1 req e hdec hval hext]
        exact ⟨500, _, rfl, wellFormed_error 500 _ (Or.inr rfl) (by decide)⟩
      | ok videoInfo =>
        rw [transcribe_of_extracted h body w w1 req videoInfo hdec hval hext]
        obtain ⟨status, data, hresp, hshape⟩ := deferred_response_wellFormed h req videoInfo w1
        refine ⟨status, data, ?_, hshape⟩
        have hsplit : Event.extractAudio req.URL :: (transcribeDeferred h req videoInfo w1).1 ++
            [Event.cleanup videoInfo.VideoID] =
            [Event.extractAudio req.URL] ++ (transcribeDeferred h req videoInfo w1).1 ++
              [Event.cleanup videoInfo.VideoID] := rfl
        rw [hsplit, responses_append, responses_append, hresp]
        rfl

/-- C12: whatever the body and whatever the stages return, `Handler.Transcribe` writes
exactly one response; its status is 200, 201, 400 or 500; `success` is true exactly when
the status is 200 or 201; the tutorial is present exactly when `success` is true; and a
failure response has a non-empty message. -/
theorem C12_response_shape {σ : Type} (h : Handler σ) (body : String) (w : σ) :
    ∃ status data, responses (Transcribe h body w).1 = [(status, data)] ∧
      WellFormedResponse status data :=
  transcribe_response_wellFormed h body w

end handlers

namespace handlers
open models

theorem deferred_of_miss_starts_transcription {σ : Type} (h : Handler σ)
    (req : TranscribeRequest) (videoInfo : tiktok.VideoInfo) (w1 w2 : σ)
    (err : Option GoError)
    (hget : h.db.GetTutorialByVideoID videoInfo.VideoID w1 = ((none, err), w2)) :
    ∃ tail, (transcribeDeferred h req videoInfo w1).1 =
      .getTutorialByVideoID videoInfo.VideoID :: .transcribe videoInfo.AudioPath :: tail := by
  rcases htr : h.transcription.Transcribe videoInfo.AudioPath w2 with ⟨r, w3⟩
  cases r with
  | error e =>
    rw [deferred_of_transcribe_failed h req videoInfo w1 w2 w3 err e hget htr]
    exact ⟨_, rfl⟩
  | ok tr =>
    rcases hparse : h.parser.Parse tr.Text videoInfo.CreatorName w3 with ⟨r, w4⟩
    cases r with
    | error e =>
      rw [deferred_of_parse_failed h req videoInfo w1 w2 w3 w4 err e tr hget htr hparse]
      exact ⟨_, rfl⟩
    | ok recipe =>
      cases hrel : recipe.IsSoundDesign with
      | false =>
        rw [deferred_of_not_relevant h req videoInfo w1 w2 w3 w4 err tr recipe hget htr hparse
          hrel]
        exact ⟨_, rfl⟩
      | true =>
        rcases hcre : h.db.GetOrCreateCreator videoInfo.CreatorHandle videoInfo.CreatorName w4
          with ⟨r, w5⟩
        cases r with
        | error e =>
          rw [deferred_of_creator_failed h req videoInfo w1 w2 w3 w4 w5 err e tr recipe hget
            htr hparse hrel hcre]
          exact ⟨_, rfl⟩
        | ok creator =>
          rcases hsave : h.db.CreateTutorial (newTutorial req videoInfo tr recipe creator) w5
            with ⟨r, w6⟩
          cases r with
          | error e =>
            rw [deferred_of_tutorial_failed h req videoInfo w1 w2 w3 w4 w5 w6 err e tr recipe
              creator hget htr hparse hrel hcre hsave]
            exact ⟨_, rfl⟩
          | ok saved =>
            rw [deferred_of_saved h req videoInfo w1 w2 w3 w4 w5 w6 err tr recipe creator
              saved hget htr hparse hrel hcre hsave]
            exact ⟨_, rfl⟩

theorem deferred_eq_withLookupMiss {σ : Type} (h : Handler σ) (req : TranscribeRequest)
    (videoInfo : tiktok.VideoInfo) (w1 w2 : σ) (err : Option GoError)
    (hget : h.db.GetTutorialByVideoID videoInfo.VideoID w1 = ((none, err), w2)) :
    transcribeDeferred h req videoInfo w1 =
      transcribeDeferred (withLookupMiss h) req videoInfo w1 := by
  simp only [transcribeDeferred, withLookupMiss, hget]

/-- C14: when `ExtractAudio` succeeds and `GetTutorialByVideoID` returns an error and no
tutorial, the handler writes no response at that point: its next event is the call of
`transcription.Transcribe` on the extracted audio, and the whole run (events and final
state) is the run of the same handler whose lookup answers "no tutorial, no error". -/
theorem C14_failed_lookup_is_a_miss {σ : Type} (h : Handler σ) (body : String) (w w1 w2 : σ)
    (req : TranscribeRequest) (videoInfo : tiktok.VideoInfo) (err : GoError)
    (hdec : h.decodeBody body = .ok req) (hval : tiktok.ValidateURL req.URL = true)
    (hext : h.tiktok.ExtractAudio req.URL w = (.ok videoInfo, w1))
    (hget : h.db.GetTutorialByVideoID videoInfo.VideoID w1 = ((none, some err), w2)) :
    (∃ tail, (Transcribe h body w).1 =
        .extractAudio req.URL :: .getTutorialByVideoID videoInfo.VideoID ::
          .transcribe videoInfo.AudioPath :: tail) ∧
      Transcribe h body w = Transcribe (withLookupMiss h) body w := by
  constructor
  · rw [transcribe_of_extracted h body w w1 req videoInfo hdec hval hext]
    obtain ⟨tail, htail⟩ :=
      deferred_of_miss_starts_transcription h req videoInfo w1 w2 (some err) hget
    exact ⟨tail ++ [.cleanup videoInfo.VideoID], by rw [htail]; rfl⟩
  · rw [transcribe_of_extracted h body w w1 req videoInfo hdec hval hext,
      transcribe_of_extracted (withLookupMiss h) body w w1 req videoInfo hdec hval hext,
      deferred_eq_withLookupMiss h req videoInfo w1 w2 (some err) hget]
    rfl

/-- Witness of C14: the scripted run whose lookup fails with a store error. -/
theorem C14_failed_lookup_is_a_miss_witness :
    Transcribe lookupFailScript.handler "" 0 =
      Transcribe (withLookupMiss lookupFailScript.handler) "" 0 :=
  (C14_failed_lookup_is_a_miss lookupFailScript.handler "" 0 1 2 sampleRequest sampleVideo
    "supabase error (status 503): " rfl (by decide) rfl rfl).2

end handlers

/-! ## Theorems: configuration and startup -/

namespace api
open config

theorem main_of_credentials (godotenvLoad : Environ → Environ) (environ : Environ)
    (serve : String → Option GoError) (hcred : CredentialsPresent (godotenvLoad environ)) :
    main godotenvLoad environ serve =
      startServer
        { Port := getEnv (godotenvLoad environ) "PORT" "8080"
          GroqAPIKey := godotenvLoad environ "GROQ_API_KEY"
          ClaudeAPIKey := godotenvLoad environ "CLAUDE_API_KEY"
          SupabaseURL := godotenvLoad environ "SUPABASE_URL"
          SupabaseAnonKey := godotenvLoad environ "SUPABASE_ANON_KEY" } serve := by
  obtain ⟨h1, h2, h3, h4⟩ := hcred
  simp only [main, Load, h1, h2, h3, h4, if_false, or_self]

theorem main_of_missing (godotenvLoad : Environ → Environ) (environ : Environ)
    (serve : String → Option GoError) (hcred : ¬ CredentialsPresent (godotenvLoad environ)) :
    ∃ message, main godotenvLoad environ serve = [.fatal message] := by
  by_cases h1 : godotenvLoad environ "GROQ_API_KEY" = ""
  · exact ⟨"GROQ_API_KEY is required", by simp only [main, Load, h1, if_true]⟩
  · by_cases h2 : godotenvLoad environ "CLAUDE_API_KEY" = ""
    · exact ⟨"CLAUDE_API_KEY is required", by simp only [main, Load, h1, h2, if_true, if_false]⟩
    · by_cases h34 : godotenvLoad environ "SUPABASE_URL" = "" ∨
          godotenvLoad environ "SUPABASE_ANON_KEY" = ""
      · exact ⟨"SUPABASE_URL and SUPABASE_ANON_KEY are required",
          by simp only [main, Load, h1, h2, h34, if_true, if_false]⟩
      · exact absurd ⟨h1, h2, fun h => h34 (Or.inl h), fun h => h34 (Or.inr h)⟩ hcred

theorem startServer_listens (cfg : Config) (serve : String → Option GoError) :
    (startServer cfg serve).any StartupEvent.isListen = true := by
  simp [startServer, StartupEvent.isListen]

/-- C13: with `environ` the environment as `os.Getenv` reads it once `godotenv.Load` has
run, `main` reaches `http.ListenAndServe` exactly when `GROQ_API_KEY`, `CLAUDE_API_KEY`,
`SUPABASE_URL` and `SUPABASE_ANON_KEY` are all non-empty. When they are, it sets up the
services, the handler, the router and the routes and listens on the port, which is
`PORT`, or `8080` when `PORT` is empty or not set. When one of them is empty or not set,
the run is a single fatal exit, before anything is set up. -/
theorem C13_fail_fast_startup (godotenvLoad : Environ → Environ) (environ : Environ)
    (serve : String → Option GoError) :
    ((main godotenvLoad environ serve).any StartupEvent.isListen = true ↔
        CredentialsPresent (godotenvLoad environ)) ∧
      (CredentialsPresent (godotenvLoad environ) →
        ∃ cfg, main godotenvLoad environ serve = startServer cfg serve ∧
          cfg.Port = (if godotenvLoad environ "PORT" = "" then "8080"
            else godotenvLoad environ "PORT") ∧
          StartupEvent.listenAndServe (":" ++ cfg.Port) ∈ main godotenvLoad environ serve) ∧
      (¬ CredentialsPresent (godotenvLoad environ) →
        (∃ message, main godotenvLoad environ serve = [.fatal message]) ∧
          ∀ e ∈ main godotenvLoad environ serve, e.isSetup = false) := by
  refine ⟨?_, ?_, ?_⟩
  · constructor
    · intro hlisten
      by_contra hcred
      obtain ⟨message, hmain⟩ := main_of_missing godotenvLoad environ serve hcred
      rw [hmain] at hlisten
      simp [StartupEvent.isListen] at hlisten
    · intro hcred
      rw [main_of_credentials godotenvLoad environ serve hcred]
      exact startServer_listens _ serve
  · intro hcred
    refine ⟨_, main_of_credentials godotenvLoad environ serve hcred, ?_, ?_⟩
    · simp only [getEnv]
      by_cases hport : godotenvLoad environ "PORT" = ""
      · simp [hport]
      · simp [hport]
    · rw [main_of_credentials godotenvLoad environ serve hcred]
      simp [startServer]
  · intro hcred
    obtain ⟨message, hmain⟩ := main_of_missing godotenvLoad environ serve hcred
    refine ⟨⟨message, hmain⟩, ?_⟩
    rw [hmain]
    simp [StartupEvent.isSetup]

/-- Witness of C13: without the Claude key the run is one fatal exit; with the four
variables set the run reaches `http.ListenAndServe`. -/
theorem C13_fail_fast_startup_witness :
    (∃ message, main id noClaudeEnviron (fun _ => none) = [.fatal message]) ∧
      (main id sampleEnviron (fun _ => none)).any StartupEvent.isListen = true :=
  ⟨((C13_fail_fast_startup id noClaudeEnviron (fun _ => none)).2.2
      (fun h => h.2.1 rfl)).1,
    (C13_fail_fast_startup id sampleEnviron (fun _ => none)).1.mpr
      ⟨by decide, by decide, by decide, by decide⟩⟩

end api

end Sdr
